import Mathlib

/-
Verification of the motion-engine specification of the esp32s3 stepper
controller against its C++ sources.

Embedding conventions:
* `float`/`double` arithmetic is embedded as exact rational arithmetic (ℚ);
  the formulas under study are short chains of +, -, *, / on small values.
* C integer casts `(long)x` on a floating value are truncation toward zero,
  embedded as `ratTrunc`.
* Machine integers (`long`, `unsigned long`) are embedded as ℤ / ℕ; the
  quantities involved (step counts, millisecond durations) stay far below
  the 32-bit range in every statement proved here.
* Hardware time (micros()/millis() comparisons) and the random source are
  embedded as oracle inputs consumed by each `process` tick.
* Platform constants from `Config.h` (not part of the corpus) are kept as
  parameters (`MathParams`); concrete witnesses use the values documented
  in the repository comments (6 steps/mm, ~6 µs step execution time).
-/

namespace Stepper

/-- Truncation toward zero of a rational, the semantics of a C `(long)` cast
applied to a floating value. -/
def ratTrunc (q : ℚ) : ℤ :=
  if 0 ≤ q then ⌊q⌋ else ⌈q⌉

/-- Platform constants declared in `Config.h` (file absent from the corpus);
kept parametric.  Witness instances use values documented in the repository:
6 steps/mm (main header comment), ~6 µs per step pulse (MotorDriver.cpp). -/
structure MathParams where
  stepsPerMM : ℚ
  maxSpeedLevel : ℚ
  stepExecutionTimeMicros : ℚ
  speedCompensationFactor : ℚ
  hardDriftZoneMM : ℚ
  wasAtStartThresholdSteps : ℤ
  deriving DecidableEq

/-- Concrete parameter values used by witnesses and counterexamples:
6 steps/mm and ~6 µs step time are documented in the repository sources;
the remaining values are representative. -/
def refParams : MathParams :=
  ⟨6, 20, 6, 1, 20, 10⟩

namespace MovementMath

/-- `MovementMath::mmToSteps` (include/core/MovementMath.h line 32):
`(long)(mm * STEPS_PER_MM)` — a C cast, i.e. truncation toward zero. -/
def mmToSteps (p : MathParams) (mm : ℚ) : ℤ :=
  ratTrunc (mm * p.stepsPerMM)

/-- `MovementMath::stepsToMM`: `(float)steps / STEPS_PER_MM`. -/
def stepsToMM (p : MathParams) (steps : ℤ) : ℚ :=
  (steps : ℚ) / p.stepsPerMM

/-- `MovementMath::speedLevelToCPM` (src/core/MovementMath.cpp lines 16-21). -/
def speedLevelToCPM (p : MathParams) (speedLevel : ℚ) : ℚ :=
  let cpm := speedLevel * 10
  let cpm := if cpm < 0 then 0 else cpm
  if cpm > p.maxSpeedLevel * 10 then p.maxSpeedLevel * 10 else cpm

/-- `MovementMath::vaetStepDelay` (src/core/MovementMath.cpp lines 23-38).
The returned `unsigned long` is the truncation of the final float value. -/
def vaetStepDelay (p : MathParams) (speedLevel distanceMM : ℚ) : ℤ :=
  if distanceMM ≤ 0 ∨ speedLevel ≤ 0 then 1000
  else
    let cpm := speedLevelToCPM p speedLevel
    let cpm := if cpm ≤ 1/10 then 1/10 else cpm
    let stepsPerDirection := mmToSteps p distanceMM
    if stepsPerDirection ≤ 0 then 1000
    else
      let halfCycleMs := (60000 / cpm) / 2
      let rawDelay := (halfCycleMs * 1000) / (stepsPerDirection : ℚ)
      let delay := (rawDelay - p.stepExecutionTimeMicros) / p.speedCompensationFactor
      if delay < 20 then 20 else ratTrunc delay

/-- The unit conversion exactly as the specification words it:
`steps = round(mm × STEPS_PER_MM)`, rounding to the nearest integer. -/
def mmToStepsSpecRound (p : MathParams) (mm : ℚ) : ℤ :=
  round (mm * p.stepsPerMM)

/-- The VAET step-delay formula exactly as the claim words it: step count by
rounding to nearest, `cpm = speed_to_cpm(L)` with no further floor, result
clamped to at least 20 µs, 1000 µs on invalid input. -/
def vaetStepDelaySpecRound (p : MathParams) (speedLevel distanceMM : ℚ) : ℤ :=
  if distanceMM ≤ 0 ∨ speedLevel ≤ 0 ∨ round (distanceMM * p.stepsPerMM) ≤ 0 then 1000
  else
    let cpm := speedLevelToCPM p speedLevel
    let stepsPerDirection := round (distanceMM * p.stepsPerMM)
    let rawDelay := ((30000 / cpm) * 1000) / (stepsPerDirection : ℚ)
    let delay := (rawDelay - p.stepExecutionTimeMicros) / p.speedCompensationFactor
    if delay < 20 then 20 else ratTrunc delay

/-- The VAET step-delay formula with the corrections the code forces: the step
count is the truncation toward zero of `D × STEPS_PER_MM` (the C cast in
`mmToSteps`), and the cycles-per-minute value is floored at 0.1 before use. -/
def vaetStepDelaySpecTrunc (p : MathParams) (speedLevel distanceMM : ℚ) : ℤ :=
  if distanceMM ≤ 0 ∨ speedLevel ≤ 0 ∨ ratTrunc (distanceMM * p.stepsPerMM) ≤ 0 then 1000
  else
    let cpm := speedLevelToCPM p speedLevel
    let cpm := if cpm ≤ 1/10 then 1/10 else cpm
    let stepsPerDirection := ratTrunc (distanceMM * p.stepsPerMM)
    let rawDelay := ((30000 / cpm) * 1000) / (stepsPerDirection : ℚ)
    let delay := (rawDelay - p.stepExecutionTimeMicros) / p.speedCompensationFactor
    if delay < 20 then 20 else ratTrunc delay

/-- `ChaosBaseConfig` (include/movement/ChaosPatterns.h): durations in ms. -/
structure ChaosBaseConfig where
  speedMin : ℚ
  speedMax : ℚ
  speedCrazinessBoost : ℚ
  durationMin : ℕ
  durationMax : ℕ
  durationCrazinessReduction : ℕ
  amplitudeJumpMin : ℚ
  amplitudeJumpMax : ℚ
  deriving DecidableEq

/-- `ZIGZAG_CONFIG` (include/movement/ChaosPatterns.h lines 73-77). -/
def ZIGZAG_CONFIG : ChaosBaseConfig :=
  ⟨2/5, 7/10, 3/10, 2000, 4000, 600, 3/5, 1⟩

/-- `MovementMath::safeDurationCalc` (src/core/MovementMath.cpp lines
125-136), returning the pair `(outMin, outMax)`. -/
def safeDurationCalc (cfg : ChaosBaseConfig) (craziness maxFactor : ℚ) : ℤ × ℤ :=
  let minVal : ℤ := (cfg.durationMin : ℤ) - ratTrunc ((cfg.durationCrazinessReduction : ℚ) * craziness)
  let maxVal : ℤ := (cfg.durationMax : ℤ) -
    ratTrunc (((cfg.durationMax : ℚ) - (cfg.durationMin : ℚ)) * craziness * maxFactor)
  let minVal := if minVal < 100 then 100 else minVal
  let maxVal := if maxVal < 100 then 100 else maxVal
  let maxVal := if minVal ≥ maxVal then minVal + 100 else maxVal
  (minVal, maxVal)

end MovementMath

namespace ContactSensors

/-- Inner loop of `ContactSensors::readDebounced`
(src/hardware/ContactSensors.cpp lines 61-87): walk the samples, counting
reads that match `expected`, returning `true` as soon as the majority
threshold `required` is reached (the early exit), `false` after the samples
are exhausted.  A sample list entry is one `digitalRead(pin)` result. -/
def debounceAux (expected : Bool) : List Bool → ℕ → ℕ → Bool
  | [], _, _ => false
  | s :: rest, valid, required =>
    if s = expected then
      if required ≤ valid + 1 then true
      else debounceAux expected rest (valid + 1) required
    else debounceAux expected rest valid required

/-- `ContactSensors::readDebounced` over a fixed sequence of pin samples:
`requiredValid = (checks + 1) / 2` with `checks` the number of samples. -/
def readDebounced (expected : Bool) (samples : List Bool) : Bool :=
  debounceAux expected samples 0 ((samples.length + 1) / 2)

/-- The naive majority vote the claim describes: read all `N` samples and
return whether at least `(N+1)/2` of them equal the expected state. -/
def majorityVote (expected : Bool) (samples : List Bool) : Bool :=
  decide ((samples.length + 1) / 2 ≤ (samples.filter (fun s => s = expected)).length)

end ContactSensors

/-- `SystemState` (Types.h). -/
inductive SystemState where
  | STATE_INIT | STATE_CALIBRATING | STATE_READY | STATE_RUNNING | STATE_PAUSED | STATE_ERROR
  deriving DecidableEq

/-- `ExecutionContext` (Types.h). -/
inductive ExecutionContext where
  | CONTEXT_STANDALONE | CONTEXT_SEQUENCER
  deriving DecidableEq

/-- `MovementType` (Types.h). -/
inductive MovementType where
  | MOVEMENT_VAET | MOVEMENT_OSC | MOVEMENT_CHAOS | MOVEMENT_PURSUIT | MOVEMENT_CALIBRATION
  deriving DecidableEq

open SystemState ExecutionContext MovementType

/-- `CyclePauseConfig` (Types.h lines 154-178). -/
structure CyclePauseConfig where
  enabled : Bool
  pauseDurationSec : ℚ
  isRandom : Bool
  minPauseSec : ℚ
  maxPauseSec : ℚ
  deriving DecidableEq

/-- `CyclePauseConfig::calculateDurationMs`; the `random(0,10000)` draw is the
oracle argument `r`. -/
def CyclePauseConfig.calculateDurationMs (cfg : CyclePauseConfig) (r : Fin 10000) : ℤ :=
  if cfg.isRandom then
    let minVal := min cfg.minPauseSec cfg.maxPauseSec
    let maxVal := max cfg.minPauseSec cfg.maxPauseSec
    ratTrunc ((minVal + ((r : ℚ) / 10000) * (maxVal - minVal)) * 1000)
  else ratTrunc (cfg.pauseDurationSec * 1000)

/-- `CyclePauseState` (Types.h lines 180-189); timestamps are abstracted by
the tick oracle, the duration value is kept. -/
structure CyclePauseState where
  isPausing : Bool
  currentPauseDuration : ℤ
  deriving DecidableEq

/-- `MotionConfig` (Types.h lines 246-258). -/
structure MotionConfig where
  startPositionMM : ℚ
  targetDistanceMM : ℚ
  speedLevelForward : ℚ
  speedLevelBackward : ℚ
  cyclePause : CyclePauseConfig
  deriving DecidableEq

/-- `PendingMotionConfig` (Types.h lines 260-273). -/
structure PendingMotionConfig where
  startPositionMM : ℚ
  distanceMM : ℚ
  speedLevelForward : ℚ
  speedLevelBackward : ℚ
  hasChanges : Bool
  deriving DecidableEq

/-- `ZoneEffectConfig` (Types.h lines 294-334).  The speed-effect fields
(`speedEffect`, `speedCurve`, `speedIntensity`) only rescale the step cadence,
which this embedding abstracts into the `stepDue` tick oracle, so they are
omitted here. -/
structure ZoneEffectConfig where
  enabled : Bool
  enableStart : Bool
  enableEnd : Bool
  mirrorOnReturn : Bool
  zoneMM : ℚ
  randomTurnbackEnabled : Bool
  turnbackChance : ℕ
  endPauseEnabled : Bool
  endPauseIsRandom : Bool
  endPauseDurationSec : ℚ
  endPauseMinSec : ℚ
  endPauseMaxSec : ℚ
  deriving DecidableEq

/-- `ZoneEffectState` (Types.h lines 338-353). -/
structure ZoneEffectState where
  hasPendingTurnback : Bool
  hasRolledForTurnback : Bool
  turnbackPointMM : ℚ
  isPausing : Bool
  pauseDurationMs : ℤ
  deriving DecidableEq

/-- The all-false reset value of `ZoneEffectState` (its default constructor). -/
def ZoneEffectState.reset : ZoneEffectState :=
  ⟨false, false, 0, false, 0⟩

/-- `StatsTracking` (include/core/TimeUtils.h lines 197-240).  The counter is
embedded as a mathematical ℕ; every value reached in the statements proved
here is far below the 32-bit wrap. -/
structure StatsTracking where
  totalDistanceTraveled : ℕ
  lastSavedDistance : ℕ
  lastStepForDistance : ℤ
  deriving DecidableEq

/-- `StatsTracking::addDistance`: add only positive deltas. -/
def StatsTracking.addDistance (st : StatsTracking) (delta : ℤ) : StatsTracking :=
  if 0 < delta then { st with totalDistanceTraveled := st.totalDistanceTraveled + delta.toNat }
  else st

/-- `StatsTracking::markSaved`. -/
def StatsTracking.markSaved (st : StatsTracking) : StatsTracking :=
  { st with lastSavedDistance := st.totalDistanceTraveled }

/-- `StatsTracking::syncPosition`. -/
def StatsTracking.syncPosition (st : StatsTracking) (currentStep : ℤ) : StatsTracking :=
  { st with lastStepForDistance := currentStep }

/-- `StatsTracking::trackDelta`. -/
def StatsTracking.trackDelta (st : StatsTracking) (currentStep : ℤ) : StatsTracking :=
  let delta := |currentStep - st.lastStepForDistance|
  let st := st.addDistance delta
  { st with lastStepForDistance := currentStep }

/-- Oracle inputs consumed by one engine tick: clock comparisons, the debounced
contact reads inside the hard-drift windows, and the random draws. -/
structure TickOracle where
  stepDue : Bool
  cyclePauseElapsed : Bool
  endPauseElapsed : Bool
  endContactRead : Bool
  startContactRead : Bool
  turnbackRoll : Fin 100
  turnbackPoint : Fin 1000
  endPauseRand : Fin 1000
  cyclePauseRand : Fin 10000
  deriving DecidableEq

/-- The engine state shared by the supervisor and the VAET controller: the
`SystemConfig` fields, the position globals of the main translation unit, the
motion configuration with its pending shadow, the zone-effect and pause state
owned by `BaseMovementController`, the statistics tracker and the motor
enable latch.  Timestamp fields (`lastStepMicros`, `pauseStartMs`, ...) are
abstracted by the tick oracle. -/
structure MachineState where
  params : MathParams
  currentState : SystemState
  executionContext : ExecutionContext
  totalDistanceMM : ℚ
  minStep : ℤ
  maxStep : ℤ
  currentMovement : MovementType
  currentStep : ℤ
  startStep : ℤ
  targetStep : ℤ
  movingForward : Bool
  hasReachedStartStep : Bool
  wasAtStart : Bool
  stepDelayMicrosForward : ℤ
  stepDelayMicrosBackward : ℤ
  motion : MotionConfig
  pendingMotion : PendingMotionConfig
  motionPauseState : CyclePauseState
  oscPauseIsPausing : Bool
  chaosIsRunning : Bool
  seqIsRunning : Bool
  zoneEffect : ZoneEffectConfig
  zoneEffectState : ZoneEffectState
  stats : StatsTracking
  dailyStatsMM : ℚ
  motorEnabled : Bool
  deriving DecidableEq

namespace BaseMovement

open MovementMath

/-- `BaseMovementControllerClass::recalcStepPositions` (part_002 lines 43-46). -/
def recalcStepPositions (s : MachineState) : MachineState :=
  { s with startStep := mmToSteps s.params s.motion.startPositionMM,
           targetStep := mmToSteps s.params (s.motion.startPositionMM + s.motion.targetDistanceMM) }

/-- `BaseMovementControllerClass::calculateStepDelay` (part_002 lines 172-214);
the diagnostics logging is omitted, the two delay fields are computed by the
shared pure function. -/
def calculateStepDelay (s : MachineState) : MachineState :=
  { s with
    stepDelayMicrosForward := vaetStepDelay s.params s.motion.speedLevelForward s.motion.targetDistanceMM,
    stepDelayMicrosBackward := vaetStepDelay s.params s.motion.speedLevelBackward s.motion.targetDistanceMM }

/-- `BaseMovementControllerClass::initPendingFromCurrent` (part_002 lines 754-759). -/
def initPendingFromCurrent (s : MachineState) : MachineState :=
  { s with pendingMotion := { s.pendingMotion with
      startPositionMM := s.motion.startPositionMM,
      distanceMM := s.motion.targetDistanceMM,
      speedLevelForward := s.motion.speedLevelForward,
      speedLevelBackward := s.motion.speedLevelBackward } }

/-- `BaseMovementControllerClass::setDistance` (part_002 lines 51-76). -/
def setDistance (distMM : ℚ) (s : MachineState) : MachineState :=
  let distMM := if s.motion.startPositionMM + distMM > s.totalDistanceMM
    then s.totalDistanceMM - s.motion.startPositionMM else distMM
  if s.currentState = STATE_RUNNING then
    let s := if s.pendingMotion.hasChanges then s else initPendingFromCurrent s
    { s with pendingMotion := { s.pendingMotion with distanceMM := distMM, hasChanges := true } }
  else
    calculateStepDelay (recalcStepPositions
      { s with motion := { s.motion with targetDistanceMM := distMM } })

/-- `BaseMovementControllerClass::setStartPosition` (part_002 lines 78-128). -/
def setStartPosition (startMM : ℚ) (s : MachineState) : MachineState :=
  let startMM := if startMM < 0 then 0 else startMM
  let startMM := if startMM > s.totalDistanceMM then s.totalDistanceMM else startMM
  let distanceWasAdjusted := startMM + s.motion.targetDistanceMM > s.totalDistanceMM
  let effectiveDistance := if distanceWasAdjusted
    then s.totalDistanceMM - startMM else s.motion.targetDistanceMM
  if s.currentState = STATE_RUNNING then
    let s := if s.pendingMotion.hasChanges then s else initPendingFromCurrent s
    { s with pendingMotion := { s.pendingMotion with
        startPositionMM := startMM, distanceMM := effectiveDistance, hasChanges := true } }
  else
    calculateStepDelay (recalcStepPositions
      { s with motion := { s.motion with
          startPositionMM := startMM,
          targetDistanceMM := if distanceWasAdjusted then effectiveDistance
            else s.motion.targetDistanceMM } })

/-- `BaseMovementControllerClass::setSpeedInternal` (part_002 lines 138-166). -/
def setSpeedInternal (speedLevel : ℚ) (isForward : Bool) (s : MachineState) : MachineState :=
  if s.currentState = STATE_RUNNING then
    let s := if s.pendingMotion.hasChanges then s else initPendingFromCurrent s
    if isForward then
      { s with pendingMotion := { s.pendingMotion with speedLevelForward := speedLevel, hasChanges := true } }
    else
      { s with pendingMotion := { s.pendingMotion with speedLevelBackward := speedLevel, hasChanges := true } }
  else
    let s := if isForward then { s with motion := { s.motion with speedLevelForward := speedLevel } }
      else { s with motion := { s.motion with speedLevelBackward := speedLevel } }
    calculateStepDelay s

/-- `BaseMovementControllerClass::applyPendingChanges` (part_002 lines 431-454). -/
def applyPendingChanges (s : MachineState) : MachineState :=
  if s.pendingMotion.hasChanges then
    recalcStepPositions (calculateStepDelay
      { s with
        motion := { s.motion with
          startPositionMM := s.pendingMotion.startPositionMM,
          targetDistanceMM := s.pendingMotion.distanceMM,
          speedLevelForward := s.pendingMotion.speedLevelForward,
          speedLevelBackward := s.pendingMotion.speedLevelBackward },
        pendingMotion := { s.pendingMotion with hasChanges := false } })
  else s

/-- `BaseMovementControllerClass::resetCycleTiming` (part_002 lines 456-461);
only the `wasAtStart` flag is state here, the timing counters are telemetry. -/
def resetCycleTiming (s : MachineState) : MachineState :=
  { s with wasAtStart := false }

/-- `saveCurrentSessionStats` (main translation unit, ContactSensors.cpp blob
lines 733-752): persist only the increment since the last save. -/
def saveCurrentSessionStats (s : MachineState) : MachineState :=
  let incrementSteps : ℕ := s.stats.totalDistanceTraveled - s.stats.lastSavedDistance
  let incrementMM : ℚ := (incrementSteps : ℚ) / s.params.stepsPerMM
  if incrementMM ≤ 0 then s
  else { s with dailyStatsMM := s.dailyStatsMM + incrementMM, stats := s.stats.markSaved }

/-- `BaseMovementControllerClass::togglePause` (part_002 lines 467-495). -/
def togglePause (s : MachineState) : MachineState :=
  if s.currentState = STATE_RUNNING ∨ s.currentState = STATE_PAUSED then
    let wasPaused := s.currentState = STATE_PAUSED
    let s := if wasPaused then s else saveCurrentSessionStats s
    { s with currentState := if wasPaused then STATE_RUNNING else STATE_PAUSED }
  else s

/-- `BaseMovementControllerClass::stop` (part_002 lines 497-542).  In the
PURSUIT branch the controller delegates to `PursuitController::stop` (absent
from the corpus) and only saves the session statistics here. -/
def stop (s : MachineState) : MachineState :=
  if s.currentMovement = MOVEMENT_PURSUIT then
    saveCurrentSessionStats s
  else
    let s := if s.currentMovement = MOVEMENT_OSC then { s with currentMovement := MOVEMENT_VAET } else s
    let s := if s.chaosIsRunning then { s with chaosIsRunning := false } else s
    let s := { s with motionPauseState := { s.motionPauseState with isPausing := false },
                      oscPauseIsPausing := false }
    if s.currentState = STATE_RUNNING ∨ s.currentState = STATE_PAUSED then
      saveCurrentSessionStats
        { s with currentState := STATE_READY,
                 pendingMotion := { s.pendingMotion with hasChanges := false } }
    else s

/-- Modelled from the spec: `CalibrationManager::startCalibration` is not in
the corpus.  Per spec section 4.4 a successful run discovers the travel `L`,
publishes `total_distance_mm = L`, `min_step = 0`, `max_step`, leaves the
carriage at the calibrated zero and returns to READY; contact-not-found
within the watchdog ends in ERROR, statistics untouched. -/
def startCalibration (outcome : Option ℚ) (s : MachineState) : MachineState :=
  match outcome with
  | some len =>
    { s with totalDistanceMM := len, minStep := 0,
             maxStep := mmToSteps s.params len, currentStep := 0,
             currentState := STATE_READY, currentMovement := MOVEMENT_VAET }
  | none => { s with currentState := STATE_ERROR }

/-- Modelled from the spec: `SequenceExecutor::stop` is not in the corpus; per
spec section 4.9 it clears the sequencer run flag and the execution context. -/
def seqStop (s : MachineState) : MachineState :=
  { s with seqIsRunning := false, executionContext := CONTEXT_STANDALONE }

/-- The validation and launch tail of `BaseMovementControllerClass::start`
(part_002 lines 556-629), factored out after the auto-calibration step. -/
def startCore (distMM speedLevel : ℚ) (s : MachineState) : MachineState :=
  if s.totalDistanceMM = 0 then s
  else if s.currentState = STATE_ERROR then s
  else if ¬(s.currentState = STATE_READY ∨ s.currentState = STATE_PAUSED ∨ s.currentState = STATE_RUNNING) then s
  else if s.motion.startPositionMM + distMM > s.totalDistanceMM ∧ s.motion.startPositionMM ≥ s.totalDistanceMM then s
  else
    let distMM := if s.motion.startPositionMM + distMM > s.totalDistanceMM
      then s.totalDistanceMM - s.motion.startPositionMM else distMM
    if s.currentState = STATE_RUNNING then
      { s with pendingMotion :=
          ⟨s.motion.startPositionMM, distMM, speedLevel, speedLevel, true⟩ }
    else
      let s := recalcStepPositions (calculateStepDelay
        { s with motion := { s.motion with
            targetDistanceMM := distMM,
            speedLevelForward := speedLevel,
            speedLevelBackward := speedLevel } })
      let fwd := if s.currentStep ≤ s.startStep then true
        else if s.currentStep ≥ s.targetStep then false else true
      resetCycleTiming
        { s with currentState := STATE_RUNNING, currentMovement := MOVEMENT_VAET,
                 movingForward := fwd,
                 stats := s.stats.syncPosition s.currentStep,
                 hasReachedStartStep := if s.startStep ≤ s.currentStep then true else false }

/-- `BaseMovementControllerClass::start` (part_002 lines 544-629).
`calibOutcome` feeds the auto-calibration triggered when the travel is still
unknown. -/
def start (distMM speedLevel : ℚ) (calibOutcome : Option ℚ) (s : MachineState) : MachineState :=
  let s := if s.seqIsRunning then seqStop s else s
  let s := if s.totalDistanceMM = 0 then startCalibration calibOutcome s else s
  startCore distMM speedLevel s

/-- `BaseMovementControllerClass::returnToStart` (part_002 lines 631-668); the
homing run of `CalibrationManager::returnToStart` is not in the corpus and is
modelled from the spec: success re-zeroes the carriage exactly as calibration
did, failure ends in ERROR. -/
def returnToStart (outcome : Option ℚ) (s : MachineState) : MachineState :=
  let s := if s.currentState = STATE_RUNNING ∨ s.currentState = STATE_PAUSED then stop s else s
  let s := { s with motorEnabled := true, currentState := STATE_CALIBRATING }
  match outcome with
  | some _ => { s with currentStep := 0, minStep := 0, currentState := STATE_READY }
  | none => { s with currentState := STATE_ERROR }

/-- `BaseMovementControllerClass::validateZoneEffect` (part_002 lines 374-425). -/
def validateZoneEffect (s : MachineState) : MachineState :=
  if s.zoneEffect.enabled then
    let movementAmplitudeMM := s.motion.targetDistanceMM
    if movementAmplitudeMM ≤ 0 then s
    else
      let maxAllowedZone := if s.zoneEffect.enableStart ∧ s.zoneEffect.enableEnd
        then movementAmplitudeMM / 2 else movementAmplitudeMM
      let zmm := if s.zoneEffect.zoneMM < 0 then 10
        else if s.zoneEffect.zoneMM < 10 then 10 else s.zoneEffect.zoneMM
      let zmm := if zmm > maxAllowedZone then maxAllowedZone else zmm
      let chance := if s.zoneEffect.turnbackChance > 100 then 100 else s.zoneEffect.turnbackChance
      let minSec := if s.zoneEffect.endPauseMinSec < 1/10 then 1/10 else s.zoneEffect.endPauseMinSec
      let maxSec := if s.zoneEffect.endPauseMaxSec < minSec then minSec + 1/2 else s.zoneEffect.endPauseMaxSec
      let durSec := if s.zoneEffect.endPauseDurationSec < 1/10 then 1/10 else s.zoneEffect.endPauseDurationSec
      { s with zoneEffect := { s.zoneEffect with
          zoneMM := zmm, turnbackChance := chance,
          endPauseMinSec := minSec, endPauseMaxSec := maxSec, endPauseDurationSec := durSec } }
  else s

/-- The SET_ZONE_EFFECT command: store the new configuration, reset the
per-pass runtime state (Types.h documents that copying a zone configuration
resets the state), then run the controller validation. -/
def setZoneEffect (cfg : ZoneEffectConfig) (s : MachineState) : MachineState :=
  validateZoneEffect { s with zoneEffect := cfg, zoneEffectState := ZoneEffectState.reset }

/-- `BaseMovementControllerClass::resetRandomTurnback` (part_002 lines 319-323). -/
def resetRandomTurnback (s : MachineState) : MachineState :=
  { s with zoneEffectState := { s.zoneEffectState with
      hasPendingTurnback := false, hasRolledForTurnback := false, turnbackPointMM := 0 } }

/-- `BaseMovementControllerClass::triggerEndPause` (part_002 lines 349-368). -/
def triggerEndPause (o : TickOracle) (s : MachineState) : MachineState :=
  if s.zoneEffect.endPauseEnabled then
    let durationMs : ℤ :=
      if s.zoneEffect.endPauseIsRandom then
        let minMs := s.zoneEffect.endPauseMinSec * 1000
        let maxMs := s.zoneEffect.endPauseMaxSec * 1000
        ratTrunc (minMs + ((o.endPauseRand : ℚ) / 1000) * (maxMs - minMs))
      else ratTrunc (s.zoneEffect.endPauseDurationSec * 1000)
    { s with zoneEffectState := { s.zoneEffectState with
        isPausing := true, pauseDurationMs := durationMs } }
  else s

/-- `BaseMovementControllerClass::rollTurnbackDice` (part_002 lines 302-317);
`random(100)` and `random(0,1000)` are the oracle draws. -/
def rollTurnbackDice (o : TickOracle) (s : MachineState) : MachineState :=
  let s := { s with zoneEffectState := { s.zoneEffectState with hasRolledForTurnback := true } }
  if (o.turnbackRoll : ℕ) < s.zoneEffect.turnbackChance then
    let minTurnback := s.zoneEffect.zoneMM * (1/10)
    let maxTurnback := s.zoneEffect.zoneMM * (9/10)
    { s with zoneEffectState := { s.zoneEffectState with
        turnbackPointMM := minTurnback + ((o.turnbackPoint : ℚ) / 1000) * (maxTurnback - minTurnback),
        hasPendingTurnback := true } }
  else s

/-- `BaseMovementControllerClass::executePendingTurnback` (part_002 lines 285-299). -/
def executePendingTurnback (distanceIntoZone : ℚ) (o : TickOracle) (s : MachineState) : MachineState :=
  if distanceIntoZone < s.zoneEffectState.turnbackPointMM then s
  else
    let s := if s.zoneEffect.endPauseEnabled then triggerEndPause o s else s
    { s with movingForward := !s.movingForward,
             zoneEffectState := { s.zoneEffectState with hasPendingTurnback := false } }

/-- `BaseMovementControllerClass::checkAndTriggerRandomTurnback`
(part_002 lines 268-283). -/
def checkAndTriggerRandomTurnback (distanceIntoZone : ℚ) (o : TickOracle) (s : MachineState) : MachineState :=
  if !s.zoneEffect.randomTurnbackEnabled then s
  else if s.zoneEffectState.isPausing then s
  else if s.zoneEffectState.hasPendingTurnback then executePendingTurnback distanceIntoZone o s
  else if s.zoneEffectState.hasRolledForTurnback then s
  else if distanceIntoZone < 2 then rollTurnbackDice o s
  else s

/-- `BaseMovementControllerClass::applyZoneEffects` (part_002 lines 674-710).
The speed-factor part of the source only rescales the returned delay, which
this embedding absorbs into the `stepDue` oracle, so only the turnback and
pause state effects are kept. -/
def applyZoneEffects (o : TickOracle) (s : MachineState) : MachineState :=
  let currentPositionMM := stepsToMM s.params (s.currentStep - s.startStep)
  let effectiveEnableStart := if s.zoneEffect.mirrorOnReturn ∧ ¬s.movingForward
    then s.zoneEffect.enableEnd else s.zoneEffect.enableStart
  let effectiveEnableEnd := if s.zoneEffect.mirrorOnReturn ∧ ¬s.movingForward
    then s.zoneEffect.enableStart else s.zoneEffect.enableEnd
  let movementEndMM := if s.movingForward then s.motion.targetDistanceMM else 0
  let distanceFromEnd := |movementEndMM - currentPositionMM|
  if ¬s.movingForward ∧ effectiveEnableStart ∧ distanceFromEnd ≤ s.zoneEffect.zoneMM then
    checkAndTriggerRandomTurnback (s.zoneEffect.zoneMM - distanceFromEnd) o s
  else if s.movingForward ∧ effectiveEnableEnd ∧ distanceFromEnd ≤ s.zoneEffect.zoneMM then
    checkAndTriggerRandomTurnback (s.zoneEffect.zoneMM - distanceFromEnd) o s
  else s

/-- `BaseMovementControllerClass::checkAndHandleEndPause` (part_002 lines
329-347): returns the updated state and whether the tick must bail out. -/
def checkAndHandleEndPause (o : TickOracle) (s : MachineState) : MachineState × Bool :=
  if s.zoneEffectState.isPausing then
    if o.endPauseElapsed then
      ({ s with zoneEffectState := { s.zoneEffectState with isPausing := false } }, false)
    else (s, true)
  else (s, false)

/-- Modelled from the spec: `ContactSensors::checkAndCorrectDriftEnd` is not
in the corpus.  Per spec sections 4.10/7 the soft-drift check is a logical
comparison that fires when the carriage has overrun the logical end limit
(within the small buffer beyond `max_step`). -/
def checkAndCorrectDriftEnd (s : MachineState) : Bool :=
  s.maxStep < s.currentStep

/-- Modelled from the spec: `ContactSensors::checkAndCorrectDriftStart` is not
in the corpus; symmetric logical overrun check at the start side. -/
def checkAndCorrectDriftStart (s : MachineState) : Bool :=
  s.currentStep < s.minStep

/-- Modelled from the spec: `ContactSensors::checkHardDriftEnd` is not in the
corpus.  Per the spec and the drift optimisation notes it performs a debounced
END-contact read only inside the `HARD_DRIFT_TEST_ZONE_MM` window before the
end limit; the read outcome is the oracle bit. -/
def hardDriftEndFault (o : TickOracle) (s : MachineState) : Bool :=
  if stepsToMM s.params (s.maxStep - s.currentStep) ≤ s.params.hardDriftZoneMM then o.endContactRead else false

/-- Modelled from the spec: `ContactSensors::checkHardDriftStart`, symmetric
START-contact read inside the window near position zero. -/
def hardDriftStartFault (o : TickOracle) (s : MachineState) : Bool :=
  if stepsToMM s.params s.currentStep ≤ s.params.hardDriftZoneMM then o.startContactRead else false

/-- `CyclePauseConfig` handling at a cycle boundary:
`BaseMovementControllerClass::handleCyclePause` (part_002 lines 875-891). -/
def handleCyclePause (o : TickOracle) (s : MachineState) : MachineState × Bool :=
  if s.motion.cyclePause.enabled then
    ({ s with motionPauseState :=
        ⟨true, s.motion.cyclePause.calculateDurationMs o.cyclePauseRand⟩ }, true)
  else (s, false)

/-- `BaseMovementControllerClass::measureCycleTime` (part_002 lines 893-921);
the timing telemetry is not state, only the `wasAtStart` latch is. -/
def measureCycleTime (s : MachineState) : MachineState :=
  { s with wasAtStart := true }

/-- `BaseMovementControllerClass::processCycleCompletion` (part_002 lines
850-873).  The sequencer completion callback targets `SequenceExecutor`
(absent from the corpus); in this model the execution context stays
STANDALONE, where the callback is a no-op. -/
def processCycleCompletion (o : TickOracle) (s : MachineState) : MachineState :=
  let s := applyPendingChanges s
  match handleCyclePause o s with
  | (s, true) => s
  | (s, false) => measureCycleTime { s with movingForward := true }

/-- `BaseMovementControllerClass::doStepForward` (part_002 lines 775-812). -/
def doStepForward (o : TickOracle) (s : MachineState) : MachineState :=
  if checkAndCorrectDriftEnd s then
    resetRandomTurnback { s with movingForward := false }
  else if hardDriftEndFault o s then
    { s with currentState := STATE_ERROR }
  else if s.targetStep < s.currentStep + 1 then
    let s := if s.zoneEffect.enabled ∧ s.zoneEffect.endPauseEnabled ∧ s.zoneEffect.enableEnd
      then triggerEndPause o s else s
    resetRandomTurnback { s with movingForward := false }
  else
    let s := if ¬s.hasReachedStartStep ∧ s.startStep ≤ s.currentStep
      then { s with hasReachedStartStep := true } else s
    { s with currentStep := s.currentStep + 1,
             stats := s.stats.trackDelta (s.currentStep + 1) }

/-- `BaseMovementControllerClass::doStepBackward` (part_002 lines 814-848). -/
def doStepBackward (o : TickOracle) (s : MachineState) : MachineState :=
  if checkAndCorrectDriftStart s then s
  else if hardDriftStartFault o s then
    { s with currentState := STATE_ERROR }
  else
    let s := if s.minStep + s.params.wasAtStartThresholdSteps < s.currentStep
      then { s with wasAtStart := false } else s
    let s := { s with currentStep := s.currentStep - 1,
                      stats := s.stats.trackDelta (s.currentStep - 1) }
    if s.currentStep ≤ s.startStep ∧ s.hasReachedStartStep then
      let s := if s.zoneEffect.enabled ∧ s.zoneEffect.endPauseEnabled ∧ s.zoneEffect.enableStart
        then triggerEndPause o s else s
      processCycleCompletion o (resetRandomTurnback s)
    else s

/-- `BaseMovementControllerClass::doStep` (part_002 lines 765-773);
`Motor.setDirection` only drives the DIR pin. -/
def doStep (o : TickOracle) (s : MachineState) : MachineState :=
  if s.movingForward then doStepForward o s else doStepBackward o s

/-- The zone-effect and stepping tail of `BaseMovementControllerClass::process`
(part_002 lines 725-748), factored out of the inline continuation. -/
def processStepPhase (o : TickOracle) (s : MachineState) : MachineState :=
  if s.zoneEffect.enabled ∧ s.hasReachedStartStep then
    let s := applyZoneEffects o s
    if s.zoneEffectState.isPausing then s
    else if o.stepDue then doStep o s else s
  else if o.stepDue then doStep o s else s

/-- `BaseMovementControllerClass::process` (part_002 lines 712-748).  The step
cadence comparison `now - lastStepMicros >= currentDelay` is the `stepDue`
oracle bit. -/
def process (o : TickOracle) (s : MachineState) : MachineState :=
  if s.currentState ≠ STATE_RUNNING then s
  else if s.motionPauseState.isPausing then
    if o.cyclePauseElapsed then
      { s with motionPauseState := { s.motionPauseState with isPausing := false },
               movingForward := true }
    else s
  else
    match checkAndHandleEndPause o s with
    | (s, true) => s
    | (s, false) => processStepPhase o s

end BaseMovement

/-- One transition label of the engine: a command consumed from the socket
dispatcher, or one motion-core tick running `BaseMovement.process`. -/
inductive Label where
  | cmdSetDistance (d : ℚ)
  | cmdSetStartPosition (d : ℚ)
  | cmdSetSpeedForward (l : ℚ)
  | cmdSetSpeedBackward (l : ℚ)
  | cmdStart (d l : ℚ) (calibOutcome : Option ℚ)
  | cmdStop
  | cmdTogglePause
  | cmdReturnToStart (outcome : Option ℚ)
  | cmdCalibrate (outcome : Option ℚ)
  | cmdSetZoneEffect (cfg : ZoneEffectConfig)
  | tick (o : TickOracle)
  deriving DecidableEq

/-- The transition function of the engine model. -/
def stepFn (l : Label) (s : MachineState) : MachineState :=
  match l with
  | .cmdSetDistance d => BaseMovement.setDistance d s
  | .cmdSetStartPosition d => BaseMovement.setStartPosition d s
  | .cmdSetSpeedForward lv => BaseMovement.setSpeedInternal lv true s
  | .cmdSetSpeedBackward lv => BaseMovement.setSpeedInternal lv false s
  | .cmdStart d lv oc => BaseMovement.start d lv oc s
  | .cmdStop => BaseMovement.stop s
  | .cmdTogglePause => BaseMovement.togglePause s
  | .cmdReturnToStart oc => BaseMovement.returnToStart oc s
  | .cmdCalibrate oc => BaseMovement.startCalibration oc s
  | .cmdSetZoneEffect cfg => BaseMovement.setZoneEffect cfg s
  | .tick o => BaseMovement.process o s

/-- Run a list of labels from a state. -/
def run (s : MachineState) : List Label → MachineState
  | [] => s
  | l :: rest => run (stepFn l s) rest

/-- A configuration window `[startMM, startMM + distMM]` is valid for the
limits `lo ≤ hi`: its step image sits inside the limits and is nonempty. -/
def CfgWindowOK (p : MathParams) (lo hi : ℤ) (startMM distMM : ℚ) : Prop :=
  lo ≤ MovementMath.mmToSteps p startMM ∧
  MovementMath.mmToSteps p startMM < MovementMath.mmToSteps p (startMM + distMM) ∧
  MovementMath.mmToSteps p (startMM + distMM) ≤ hi

/-- A state holds a valid configuration: the live window (and the queued one,
when armed) sits inside `[min_step, max_step]` and is nonempty, the cached
step endpoints agree with the live millimetre configuration, and an enabled
zone effect fits inside the live distance (spec invariant 5). -/
def StateOK (s : MachineState) : Prop :=
  0 < s.params.stepsPerMM ∧
  CfgWindowOK s.params s.minStep s.maxStep s.motion.startPositionMM s.motion.targetDistanceMM ∧
  s.startStep = MovementMath.mmToSteps s.params s.motion.startPositionMM ∧
  s.targetStep = MovementMath.mmToSteps s.params (s.motion.startPositionMM + s.motion.targetDistanceMM) ∧
  (s.pendingMotion.hasChanges = true →
    CfgWindowOK s.params s.minStep s.maxStep s.pendingMotion.startPositionMM s.pendingMotion.distanceMM) ∧
  (s.zoneEffect.enabled = true →
    0 < s.zoneEffect.zoneMM ∧ s.zoneEffect.zoneMM ≤ s.motion.targetDistanceMM)

instance (p : MathParams) (lo hi : ℤ) (startMM distMM : ℚ) :
    Decidable (CfgWindowOK p lo hi startMM distMM) := by
  unfold CfgWindowOK; infer_instance

instance (s : MachineState) : Decidable (StateOK s) := by
  unfold StateOK; infer_instance

/-- Environment sanity of a label: a calibration that reports success reports
a positive discovered travel. -/
def LabelEnvOK : Label → Prop
  | .cmdStart _ _ (some len) => 0 < len
  | .cmdCalibrate (some len) => 0 < len
  | _ => True

instance (l : Label) : Decidable (LabelEnvOK l) := by
  unfold LabelEnvOK; (cases l) <;> first | exact inferInstance | (rename_i oc; cases oc <;> exact inferInstance)

/-- A label is valid from `s` ("valid command" in the sense of the spec): the
environment input is sane and the state it produces, when RUNNING, still
holds a valid configuration. -/
def OKLabel (s : MachineState) (l : Label) : Prop :=
  LabelEnvOK l ∧ ((stepFn l s).currentState = SystemState.STATE_RUNNING → StateOK (stepFn l s))

instance (s : MachineState) (l : Label) : Decidable (OKLabel s l) := by
  unfold OKLabel; infer_instance

/-- Every prefix step of the trace is a valid label from the state it is
applied to. -/
def TraceOK (s : MachineState) : List Label → Prop
  | [] => True
  | l :: rest => OKLabel s l ∧ TraceOK (stepFn l s) rest

instance (s : MachineState) : (tr : List Label) → Decidable (TraceOK s tr)
  | [] => .isTrue trivial
  | l :: rest =>
    have : Decidable (TraceOK (stepFn l s) rest) := instDecidableTraceOK (stepFn l s) rest
    inferInstanceAs (Decidable (_ ∧ _))

/-- The boot state of the engine: the global initializers of the main
translation unit and `Types.h` defaults, `STATE_READY` at the end of
`setup()`, travel not yet calibrated. -/
def initState : MachineState where
  params := refParams
  currentState := STATE_READY
  executionContext := CONTEXT_STANDALONE
  totalDistanceMM := 0
  minStep := 0
  maxStep := 0
  currentMovement := MOVEMENT_VAET
  currentStep := 0
  startStep := 0
  targetStep := 0
  movingForward := true
  hasReachedStartStep := false
  wasAtStart := false
  stepDelayMicrosForward := 1000
  stepDelayMicrosBackward := 1000
  motion := ⟨0, 50, 5, 5, ⟨false, 3/2, false, 1/2, 5⟩⟩
  pendingMotion := ⟨0, 0, 0, 0, false⟩
  motionPauseState := ⟨false, 0⟩
  oscPauseIsPausing := false
  chaosIsRunning := false
  seqIsRunning := false
  zoneEffect := ⟨false, true, true, false, 50, false, 30, false, false, 1, 1/2, 2⟩
  zoneEffectState := ZoneEffectState.reset
  stats := ⟨0, 0, 0⟩
  dailyStatsMM := 0
  motorEnabled := false

/-- The boot state lifted to RUNNING, used as a concrete witness input. -/
def runningState : MachineState :=
  { initState with currentState := SystemState.STATE_RUNNING }

/-- A RUNNING state with a queued (pending) motion edit, used as a concrete
witness input. -/
def runningPendingState : MachineState :=
  { initState with
      currentState := SystemState.STATE_RUNNING,
      pendingMotion := ⟨10, 30, 5, 5, true⟩ }

/-- A calibrated state stuck in ERROR, used as a concrete witness input. -/
def errorCalibratedState : MachineState :=
  { initState with
      currentState := SystemState.STATE_ERROR,
      totalDistanceMM := 200 }

/-- A calibrated state already lifted to RUNNING, used as a concrete witness
input for theorems that need a nonzero calibrated travel. -/
def runningCalibratedState : MachineState :=
  { initState with currentState := SystemState.STATE_RUNNING, totalDistanceMM := 200 }

/-- A tick oracle for the counterexample trace: the step timer has elapsed,
no pause timer has, both hard-drift contact reads come back inactive, and all
random draws are zero. -/
def o1 : TickOracle :=
  ⟨true, false, false, false, false, 0, 0, 0, 0⟩

/-- State after calibrating a 200 mm travel from boot. -/
def e1 : MachineState :=
  { initState with totalDistanceMM := 200, maxStep := 1200 }

/-- State after `SET_START_POSITION 100` while READY. -/
def e2 : MachineState :=
  { e1 with motion := ⟨100, 50, 5, 5, ⟨false, 3/2, false, 1/2, 5⟩⟩,
            startStep := 600, targetStep := 900,
            stepDelayMicrosForward := 1994, stepDelayMicrosBackward := 1994 }

/-- State after `START 20 5`: RUNNING forward toward the window, with the
`hasReachedStartStep` latch still disarmed because the carriage sits far
below the configured start. -/
def e3 : MachineState :=
  { e2 with currentState := SystemState.STATE_RUNNING,
            motion := ⟨100, 20, 5, 5, ⟨false, 3/2, false, 1/2, 5⟩⟩,
            targetStep := 720,
            stepDelayMicrosForward := 4994, stepDelayMicrosBackward := 4994 }

/-- State after one forward step of the approach. -/
def e4 : MachineState :=
  { e3 with currentStep := 1, stats := ⟨1, 0, 1⟩ }

/-- State after `TOGGLE_PAUSE`: PAUSED with the session increment persisted. -/
def e5 : MachineState :=
  { e4 with currentState := SystemState.STATE_PAUSED,
            dailyStatsMM := 1/6, stats := ⟨1, 1, 1⟩ }

/-- State after `SET_DISTANCE 1/6` while PAUSED (applied immediately). -/
def e6 : MachineState :=
  { e5 with motion := ⟨100, 1/6, 5, 5, ⟨false, 3/2, false, 1/2, 5⟩⟩,
            targetStep := 601,
            stepDelayMicrosForward := 599994, stepDelayMicrosBackward := 599994 }

/-- State after `SET_START_POSITION 0` while PAUSED (applied immediately):
the window is now `[0, 1]` in steps, below the carriage. -/
def e7 : MachineState :=
  { e6 with motion := ⟨0, 1/6, 5, 5, ⟨false, 3/2, false, 1/2, 5⟩⟩,
            startStep := 0, targetStep := 1 }

/-- State after resuming: RUNNING with `currentStep = 1 ≥ targetStep = 1`. -/
def e8 : MachineState :=
  { e7 with currentState := SystemState.STATE_RUNNING }

/-- State after the next tick: the forward handler sees the target already
reached and flips direction without stepping — and without arming the
`hasReachedStartStep` latch. -/
def e9 : MachineState :=
  { e8 with movingForward := false }

/-- State after one backward step, landing exactly on `startStep = minStep =
0`; the disarmed latch suppresses cycle completion. -/
def e10 : MachineState :=
  { e9 with currentStep := 0, stats := ⟨2, 1, 0⟩ }

/-- State after one more backward step: `currentStep = -1 < minStep` while
still RUNNING. -/
def e11 : MachineState :=
  { e10 with currentStep := -1, stats := ⟨3, 1, -1⟩ }

/-- The counterexample trace: calibrate, park the window high, start an
approach from below it, pause mid-approach, shrink and move the window below
the carriage through immediate PAUSED-time edits, resume, and tick. -/
def evilTrace : List Label :=
  [Label.cmdCalibrate (some 200), Label.cmdSetStartPosition 100,
   Label.cmdStart 20 5 none, Label.tick o1, Label.cmdTogglePause,
   Label.cmdSetDistance (1/6), Label.cmdSetStartPosition 0,
   Label.cmdTogglePause, Label.tick o1, Label.tick o1, Label.tick o1]

/-- States reachable from boot through valid labels. -/
inductive ReachableOK : MachineState → Prop where
  | init : ReachableOK initState
  | step (s : MachineState) (l : Label) :
      ReachableOK s → OKLabel s l → ReachableOK (stepFn l s)

/-- The inductive invariant of the engine model. -/
def Inv (s : MachineState) : Prop :=
  0 < s.params.stepsPerMM ∧
  s.minStep = 0 ∧
  0 ≤ s.maxStep ∧
  s.minStep - 1 ≤ s.currentStep ∧
  s.currentStep ≤ s.maxStep ∧
  (s.currentState = SystemState.STATE_RUNNING → StateOK s)

/-! Helper lemmas. -/

theorem ratTrunc_of_nonneg {q : ℚ} (h : 0 ≤ q) : ratTrunc q = ⌊q⌋ := by
  simp [ratTrunc, h]

theorem ratTrunc_nonneg {q : ℚ} (h : 0 ≤ q) : 0 ≤ ratTrunc q := by
  rw [ratTrunc_of_nonneg h]
  exact Int.le_floor.mpr (by exact_mod_cast h)

namespace ContactSensors

theorem debounceAux_eq_count (e : Bool) :
    ∀ (l : List Bool) (v r : ℕ), v < r →
      debounceAux e l v r = decide (r ≤ v + (l.filter (fun s => s = e)).length) := by
  intro l
  induction l with
  | nil =>
    intro v r hvr
    simp [debounceAux]
    omega
  | cons s rest ih =>
    intro v r hvr
    by_cases hs : s = e
    · by_cases hreach : r ≤ v + 1
      · simp only [debounceAux, hs, if_pos rfl, if_pos hreach]
        have hle : r ≤ v + ((List.filter (fun s => s = e) rest).length + 1) := by omega
        simp [hle]
      · have hlt : v + 1 < r := by omega
        rw [debounceAux, if_pos (by simp [hs]), if_neg hreach, ih (v + 1) r hlt]
        simp [List.filter_cons, hs]
        omega
    · rw [debounceAux, if_neg (by simp [hs]), ih v r hvr]
      simp [List.filter_cons, hs]

end ContactSensors

/-! ## C4 — millimetre-to-step conversion -/

/-- C4, counterexample: at 6 steps/mm the engine conversion of 0.25 mm is the
truncation 1, not the nearest integer 2 the claim demands. -/
theorem c4_mmToSteps_not_round :
    MovementMath.mmToSteps refParams (1/4) = 1 ∧
    MovementMath.mmToStepsSpecRound refParams (1/4) = 2 := by
  constructor
  · unfold MovementMath.mmToSteps ratTrunc refParams
    norm_num
  · unfold MovementMath.mmToStepsSpecRound refParams
    rw [show (1/4 : ℚ) * 6 = 3/2 by norm_num, round_eq]
    norm_num

/-- C4, amended: the millimetre-to-step conversion used by the engine is the
C cast `(long)(mm × STEPS_PER_MM)`, i.e. truncation toward zero: the floor on
nonnegative products, the ceiling on negative ones. -/
theorem c4_mmToSteps_truncates (p : MathParams) (mm : ℚ) :
    (0 ≤ mm * p.stepsPerMM → MovementMath.mmToSteps p mm = ⌊mm * p.stepsPerMM⌋) ∧
    (mm * p.stepsPerMM < 0 → MovementMath.mmToSteps p mm = ⌈mm * p.stepsPerMM⌉) := by
  constructor <;> intro h
  · simp [MovementMath.mmToSteps, ratTrunc, h]
  · simp [MovementMath.mmToSteps, ratTrunc, not_le.mpr h]

/-- C4 witness: the amended theorem evaluated at 0.25 mm and 6 steps/mm. -/
theorem c4_mmToSteps_truncates_witness :
    0 ≤ (1/4 : ℚ) * refParams.stepsPerMM ∧
    MovementMath.mmToSteps refParams (1/4) = ⌊(1/4 : ℚ) * refParams.stepsPerMM⌋ :=
  ⟨by norm_num [refParams], (c4_mmToSteps_truncates refParams (1/4)).1 (by norm_num [refParams])⟩

/-! ## C3 — VAET step-delay formula -/

/-- C3, counterexample: at 6 steps/mm, speed level 5 and distance 0.1 mm the
code truncates the step count to 0 and returns the 1000 µs fallback, while
the claimed formula (step count rounded to nearest, hence 1) yields 599994 µs
at the reference constants. -/
theorem c3_vaetStepDelay_not_as_claimed :
    MovementMath.vaetStepDelay refParams 5 (1/10) = 1000 ∧
    MovementMath.vaetStepDelaySpecRound refParams 5 (1/10) = 599994 := by
  constructor
  · unfold MovementMath.vaetStepDelay MovementMath.speedLevelToCPM MovementMath.mmToSteps
      ratTrunc refParams
    norm_num
  · unfold MovementMath.vaetStepDelaySpecRound MovementMath.speedLevelToCPM ratTrunc refParams
    rw [show (1/10 : ℚ) * 6 = 3/5 by norm_num, round_eq]
    norm_num

/-- C3, amended: `vaetStepDelay` computes the claimed formula with the step
count obtained by truncation toward zero (not rounding) and the
cycles-per-minute value floored at 0.1 before use; the 1000 µs fallback also
fires whenever that truncated step count is ≤ 0. -/
theorem c3_vaetStepDelay_formula (p : MathParams) (l d : ℚ) :
    MovementMath.vaetStepDelay p l d = MovementMath.vaetStepDelaySpecTrunc p l d := by
  unfold MovementMath.vaetStepDelay MovementMath.vaetStepDelaySpecTrunc MovementMath.mmToSteps
  by_cases h1 : d ≤ 0 ∨ l ≤ 0
  · have h1x : d ≤ 0 ∨ l ≤ 0 ∨ ratTrunc (d * p.stepsPerMM) ≤ 0 := by tauto
    simp [h1, h1x]
  · by_cases h2 : ratTrunc (d * p.stepsPerMM) ≤ 0
    · have h1x : d ≤ 0 ∨ l ≤ 0 ∨ ratTrunc (d * p.stepsPerMM) ≤ 0 := by tauto
      simp [h1, h2, h1x]
    · simp only [h1, h2, ite_false, if_neg, not_false_iff, or_self, or_false, false_or]
      have hdiv : ∀ c : ℚ, (60000 / c) / 2 = 30000 / c := by intro c; ring
      rw [hdiv]

/-! ## C5 — chaos safe-duration clamps -/

/-- C5, counterexample: on the repository's ZIGZAG base configuration with
craziness 1 and max_factor 1.28 the outputs are (1400, 1440): both formulas
and the 100 ms clamps hold, but `outMax ≥ outMin + 100` fails. -/
theorem c5_safeDuration_gap_fails :
    MovementMath.safeDurationCalc MovementMath.ZIGZAG_CONFIG 1 (32/25) = (1400, 1440) ∧
    ¬ ((MovementMath.safeDurationCalc MovementMath.ZIGZAG_CONFIG 1 (32/25)).1 + 100 ≤
       (MovementMath.safeDurationCalc MovementMath.ZIGZAG_CONFIG 1 (32/25)).2) := by
  have h : MovementMath.safeDurationCalc MovementMath.ZIGZAG_CONFIG 1 (32/25) = (1400, 1440) := by
    unfold MovementMath.safeDurationCalc MovementMath.ZIGZAG_CONFIG ratTrunc
    norm_num
  exact ⟨h, by rw [h]; norm_num⟩

/-- C5, amended: `safeDurationCalc` produces
`outMin = max(100, dur_min − trunc(dur_reduction × c))` and
`outMax = max(100, dur_max − trunc((dur_max − dur_min) × c × max_factor))`,
except that when the two clamped values collide (`outMax ≤ outMin`) the upper
output is forced to `outMin + 100`; consequently `outMax > outMin` always,
but `outMax ≥ outMin + 100` need not hold. -/
theorem c5_safeDuration_characterisation (cfg : MovementMath.ChaosBaseConfig) (c f : ℚ) :
    (MovementMath.safeDurationCalc cfg c f).1 =
      max 100 ((cfg.durationMin : ℤ) - ratTrunc ((cfg.durationCrazinessReduction : ℚ) * c)) ∧
    (MovementMath.safeDurationCalc cfg c f).2 =
      (let mn := max 100 ((cfg.durationMin : ℤ) - ratTrunc ((cfg.durationCrazinessReduction : ℚ) * c));
       let mx := max 100 ((cfg.durationMax : ℤ) -
         ratTrunc (((cfg.durationMax : ℚ) - (cfg.durationMin : ℚ)) * c * f));
       if mx ≤ mn then mn + 100 else mx) ∧
    (MovementMath.safeDurationCalc cfg c f).1 < (MovementMath.safeDurationCalc cfg c f).2 := by
  unfold MovementMath.safeDurationCalc
  set a := (cfg.durationMin : ℤ) - ratTrunc ((cfg.durationCrazinessReduction : ℚ) * c) with ha
  set b := (cfg.durationMax : ℤ) -
    ratTrunc (((cfg.durationMax : ℚ) - (cfg.durationMin : ℚ)) * c * f) with hb
  simp only [max_def]
  split_ifs <;> simp_all <;> omega

/-! ## C7 — debounce early-exit equivalence -/

/-- C7, counterexample: for the empty sample sequence (N = 0) the code
returns `false` while the claimed criterion "at least (N+1)/2 = 0 of the N
samples match" holds vacuously. -/
theorem c7_debounce_empty_mismatch :
    ContactSensors.readDebounced true [] = false ∧
    ContactSensors.majorityVote true [] = true := by
  constructor <;> decide

/-- C7, amended: for every nonempty sequence of pin samples the early-exiting
`readDebounced` decides exactly the naive majority vote over the full
sequence — at least `(N+1)/2` of the `N` samples equal the expected state
(3 of 5 and 2 of 3 at the two contacts' default depths); the early exit
never changes the decision. -/
theorem c7_debounce_majority_equiv (e : Bool) (samples : List Bool) (h : samples ≠ []) :
    ContactSensors.readDebounced e samples = ContactSensors.majorityVote e samples := by
  unfold ContactSensors.readDebounced ContactSensors.majorityVote
  have hlen : 0 < samples.length := List.length_pos.mpr h
  have hr : (0:ℕ) < (samples.length + 1) / 2 := by omega
  rw [ContactSensors.debounceAux_eq_count e samples 0 _ hr]
  simp

/-- C7 witness: the equivalence evaluated on a concrete 3-sample read. -/
theorem c7_debounce_majority_equiv_witness :
    ([true, false, true] : List Bool) ≠ [] ∧
    ContactSensors.readDebounced true [true, false, true] =
      ContactSensors.majorityVote true [true, false, true] :=
  ⟨by decide, c7_debounce_majority_equiv true [true, false, true] (by decide)⟩

/-! Frame-shape lemmas: the zone-effect helpers only touch the zone runtime
state and, for a turnback, the direction flag. -/

namespace BaseMovement

theorem triggerEndPause_shape (o : TickOracle) (s : MachineState) :
    ∃ z : ZoneEffectState, triggerEndPause o s = { s with zoneEffectState := z } := by
  unfold triggerEndPause
  dsimp only
  split_ifs <;> exact ⟨_, rfl⟩

theorem rollTurnbackDice_shape (o : TickOracle) (s : MachineState) :
    ∃ z : ZoneEffectState, rollTurnbackDice o s = { s with zoneEffectState := z } := by
  unfold rollTurnbackDice
  dsimp only
  split_ifs <;> exact ⟨_, rfl⟩

theorem executePendingTurnback_shape (d : ℚ) (o : TickOracle) (s : MachineState) :
    ∃ (z : ZoneEffectState) (b : Bool),
      executePendingTurnback d o s = { s with zoneEffectState := z, movingForward := b } := by
  unfold executePendingTurnback
  split_ifs
  · exact ⟨s.zoneEffectState, s.movingForward, rfl⟩
  · obtain ⟨z, hz⟩ := triggerEndPause_shape o s
    rw [hz]
    exact ⟨_, _, rfl⟩
  · exact ⟨_, _, rfl⟩

theorem checkAndTriggerRandomTurnback_shape (d : ℚ) (o : TickOracle) (s : MachineState) :
    ∃ (z : ZoneEffectState) (b : Bool),
      checkAndTriggerRandomTurnback d o s = { s with zoneEffectState := z, movingForward := b } := by
  unfold checkAndTriggerRandomTurnback
  split_ifs <;>
    first
      | exact executePendingTurnback_shape d o s
      | (obtain ⟨z, hz⟩ := rollTurnbackDice_shape o s
         exact ⟨z, s.movingForward, by rw [hz]⟩)
      | exact ⟨s.zoneEffectState, s.movingForward, rfl⟩

theorem applyZoneEffects_shape (o : TickOracle) (s : MachineState) :
    ∃ (z : ZoneEffectState) (b : Bool),
      applyZoneEffects o s = { s with zoneEffectState := z, movingForward := b } := by
  unfold applyZoneEffects
  dsimp only
  split_ifs <;>
    first
      | exact checkAndTriggerRandomTurnback_shape _ o s
      | exact ⟨s.zoneEffectState, s.movingForward, rfl⟩

theorem saveCurrentSessionStats_persists (s : MachineState)
    (hSP : 0 < s.params.stepsPerMM)
    (hsv : s.stats.lastSavedDistance ≤ s.stats.totalDistanceTraveled) :
    (saveCurrentSessionStats s).stats.lastSavedDistance =
      (saveCurrentSessionStats s).stats.totalDistanceTraveled ∧
    (saveCurrentSessionStats s).currentState = s.currentState ∧
    (saveCurrentSessionStats s).motionPauseState = s.motionPauseState ∧
    (saveCurrentSessionStats s).oscPauseIsPausing = s.oscPauseIsPausing ∧
    (saveCurrentSessionStats s).motorEnabled = s.motorEnabled ∧
    (saveCurrentSessionStats s).pendingMotion = s.pendingMotion ∧
    (saveCurrentSessionStats s).motion = s.motion ∧
    (saveCurrentSessionStats s).currentMovement = s.currentMovement := by
  unfold saveCurrentSessionStats
  dsimp only
  split_ifs with h
  · refine ⟨?_, rfl, rfl, rfl, rfl, rfl, rfl, rfl⟩
    have hq : ((s.stats.totalDistanceTraveled - s.stats.lastSavedDistance : ℕ) : ℚ) ≤ 0 := by
      rcases div_nonpos_iff.mp h with ⟨_, hb⟩ | ⟨ha, _⟩
      · exact absurd hb (not_le.mpr hSP)
      · exact ha
    have hz : (s.stats.totalDistanceTraveled - s.stats.lastSavedDistance : ℕ) = 0 := by
      exact_mod_cast le_antisymm hq (by positivity)
    omega
  · simp [StatsTracking.markSaved]

theorem stop_shape (s : MachineState)
    (hmov : s.currentMovement ≠ MovementType.MOVEMENT_PURSUIT)
    (hrun : s.currentState = SystemState.STATE_RUNNING ∨ s.currentState = SystemState.STATE_PAUSED) :
    ∃ (m : MovementType) (ch : Bool),
      stop s = saveCurrentSessionStats
        { s with currentMovement := m, chaosIsRunning := ch,
                 motionPauseState := { s.motionPauseState with isPausing := false },
                 oscPauseIsPausing := false,
                 currentState := SystemState.STATE_READY,
                 pendingMotion := { s.pendingMotion with hasChanges := false } } := by
  unfold stop
  rw [if_neg hmov]
  dsimp only
  split_ifs <;> exact ⟨_, _, rfl⟩

end BaseMovement

/-! ## C8 — stop() postcondition and frame -/

/-- C8: from RUNNING or PAUSED (in any non-pursuit movement mode — the
PURSUIT branch delegates to a controller outside the corpus), `stop()` drops
the system to READY, persists the session statistics (the saved watermark
catches up with the total), clears both the VAET and the oscillation
cycle-pause flags, and leaves the motor enable latch untouched. -/
theorem c8_stop_postcondition (s : MachineState)
    (hrun : s.currentState = SystemState.STATE_RUNNING ∨ s.currentState = SystemState.STATE_PAUSED)
    (hmov : s.currentMovement ≠ MovementType.MOVEMENT_PURSUIT)
    (hSP : 0 < s.params.stepsPerMM)
    (hsv : s.stats.lastSavedDistance ≤ s.stats.totalDistanceTraveled) :
    (BaseMovement.stop s).currentState = SystemState.STATE_READY ∧
    (BaseMovement.stop s).stats.lastSavedDistance =
      (BaseMovement.stop s).stats.totalDistanceTraveled ∧
    (BaseMovement.stop s).motionPauseState.isPausing = false ∧
    (BaseMovement.stop s).oscPauseIsPausing = false ∧
    (BaseMovement.stop s).motorEnabled = s.motorEnabled := by
  obtain ⟨m, ch, hshape⟩ := BaseMovement.stop_shape s hmov hrun
  obtain ⟨w1, w2, w3, w4, w5, w6, w7, w8⟩ :=
    BaseMovement.saveCurrentSessionStats_persists
      { s with currentMovement := m, chaosIsRunning := ch,
               motionPauseState := { s.motionPauseState with isPausing := false },
               oscPauseIsPausing := false,
               currentState := SystemState.STATE_READY,
               pendingMotion := { s.pendingMotion with hasChanges := false } }
      hSP hsv
  rw [hshape]
  exact ⟨by rw [w2], w1, by rw [w3], w4, by rw [w5]⟩

/-- C8 witness: `stop()` applied to a concrete RUNNING state. -/
theorem c8_stop_postcondition_witness :
    (runningState.currentState = SystemState.STATE_RUNNING ∨
     runningState.currentState = SystemState.STATE_PAUSED) ∧
    (BaseMovement.stop runningState).currentState = SystemState.STATE_READY := by
  refine ⟨Or.inl rfl, ?_⟩
  have h := c8_stop_postcondition runningState
    (Or.inl rfl) (by simp [runningState, initState])
    (by norm_num [runningState, initState, refParams]) (by simp [runningState, initState])
  exact h.1

/-! ## C10 — stop() discards queued parameter edits -/

/-- C10: from RUNNING or PAUSED (non-pursuit movement), `stop()` clears
`pendingMotion.hasChanges`, so queued motion-parameter edits are dropped: a
subsequent `applyPendingChanges` is a no-op. -/
theorem c10_stop_discards_pending (s : MachineState)
    (hrun : s.currentState = SystemState.STATE_RUNNING ∨ s.currentState = SystemState.STATE_PAUSED)
    (hmov : s.currentMovement ≠ MovementType.MOVEMENT_PURSUIT) :
    (BaseMovement.stop s).pendingMotion.hasChanges = false ∧
    BaseMovement.applyPendingChanges (BaseMovement.stop s) = BaseMovement.stop s := by
  obtain ⟨m, ch, hshape⟩ := BaseMovement.stop_shape s hmov hrun
  have hpend : (BaseMovement.stop s).pendingMotion.hasChanges = false := by
    rw [hshape]
    unfold BaseMovement.saveCurrentSessionStats
    dsimp only
    split_ifs <;> rfl
  refine ⟨hpend, ?_⟩
  unfold BaseMovement.applyPendingChanges
  rw [hpend]
  simp

/-- C10 witness: a concrete RUNNING state with a queued distance edit. -/
theorem c10_stop_discards_pending_witness :
    (runningPendingState.currentState = SystemState.STATE_RUNNING ∨
     runningPendingState.currentState = SystemState.STATE_PAUSED) ∧
    (BaseMovement.stop runningPendingState).pendingMotion.hasChanges = false :=
  ⟨Or.inl rfl,
   (c10_stop_discards_pending runningPendingState
      (Or.inl rfl) (by simp [runningPendingState, initState])).1⟩

/-! ## C9 — uncalibrated or faulted start is refused -/

/-- C9, counterexample: `start` received while uncalibrated with a failing
auto-calibration leaves the system in ERROR, not with `SystemState`
unchanged as the claim states (the boot state is READY). -/
theorem c9_start_changes_state_on_failed_calibration :
    initState.totalDistanceMM = 0 ∧
    initState.currentState = SystemState.STATE_READY ∧
    (BaseMovement.start 50 5 none initState).currentState = SystemState.STATE_ERROR := by
  refine ⟨rfl, rfl, ?_⟩
  unfold BaseMovement.start BaseMovement.startCore BaseMovement.startCalibration BaseMovement.seqStop initState
  simp

/-- C9, amended: a `start` received while `total_distance_mm = 0` triggers
auto-calibration; when calibration fails the command is refused — the
movement type and the motion configuration are untouched — but `SystemState`
ends at ERROR (set by the failed calibration), not unchanged.  A `start`
received in ERROR state on a calibrated system is refused with `SystemState`,
`MovementType` and the motion configuration all unchanged. -/
theorem c9_start_refusal (s : MachineState) (d l : ℚ) :
    (s.totalDistanceMM = 0 →
      (BaseMovement.start d l none s).currentMovement = s.currentMovement ∧
      (BaseMovement.start d l none s).motion = s.motion ∧
      (BaseMovement.start d l none s).currentState = SystemState.STATE_ERROR) ∧
    (∀ oc, s.currentState = SystemState.STATE_ERROR → s.totalDistanceMM ≠ 0 →
      (BaseMovement.start d l oc s).currentState = SystemState.STATE_ERROR ∧
      (BaseMovement.start d l oc s).currentMovement = s.currentMovement ∧
      (BaseMovement.start d l oc s).motion = s.motion) := by
  constructor
  · intro h0
    unfold BaseMovement.start BaseMovement.startCore BaseMovement.startCalibration BaseMovement.seqStop
    dsimp only
    split_ifs <;> simp_all
  · intro oc hE hT
    unfold BaseMovement.start BaseMovement.startCore BaseMovement.startCalibration BaseMovement.seqStop
    dsimp only
    split_ifs <;> simp_all

/-! Frame lemmas on the live motion configuration, used for C2. -/

namespace BaseMovement

theorem saveCurrentSessionStats_motion (s : MachineState) :
    (saveCurrentSessionStats s).motion = s.motion := by
  unfold saveCurrentSessionStats
  dsimp only
  split_ifs <;> rfl

theorem triggerEndPause_motion (o : TickOracle) (s : MachineState) :
    (triggerEndPause o s).motion = s.motion := by
  unfold triggerEndPause
  dsimp only
  split_ifs <;> rfl

theorem triggerEndPause_pendingMotion (o : TickOracle) (s : MachineState) :
    (triggerEndPause o s).pendingMotion = s.pendingMotion := by
  unfold triggerEndPause
  dsimp only
  split_ifs <;> rfl

theorem stop_motion (s : MachineState) : (stop s).motion = s.motion := by
  unfold stop
  dsimp only
  split_ifs <;> first | rfl | rw [saveCurrentSessionStats_motion]

theorem togglePause_motion (s : MachineState) : (togglePause s).motion = s.motion := by
  unfold togglePause
  dsimp only
  split_ifs <;> first | rfl | (show (saveCurrentSessionStats s).motion = s.motion; rw [saveCurrentSessionStats_motion])

theorem startCalibration_motion (oc : Option ℚ) (s : MachineState) :
    (startCalibration oc s).motion = s.motion := by
  cases oc <;> rfl

theorem returnToStart_motion (oc : Option ℚ) (s : MachineState) :
    (returnToStart oc s).motion = s.motion := by
  unfold returnToStart
  dsimp only
  cases oc <;> split_ifs <;> first | rfl | (show (stop s).motion = s.motion; rw [stop_motion])

theorem setZoneEffect_motion (cfg : ZoneEffectConfig) (s : MachineState) :
    (setZoneEffect cfg s).motion = s.motion := by
  unfold setZoneEffect validateZoneEffect
  dsimp only
  split_ifs <;> rfl

theorem start_motion_running (d l : ℚ) (oc : Option ℚ) (s : MachineState)
    (hrun : s.currentState = SystemState.STATE_RUNNING)
    (hTot : s.totalDistanceMM ≠ 0) :
    (start d l oc s).motion = s.motion := by
  unfold start startCore seqStop startCalibration
  dsimp only
  cases oc <;> split_ifs <;> rfl

theorem doStepForward_motion (o : TickOracle) (s : MachineState) :
    (doStepForward o s).motion = s.motion ∧
    (doStepForward o s).pendingMotion = s.pendingMotion := by
  unfold doStepForward resetRandomTurnback
  dsimp only
  split_ifs <;>
    first
      | exact ⟨rfl, rfl⟩
      | (constructor
         · show (triggerEndPause o s).motion = s.motion
           exact triggerEndPause_motion o s
         · show (triggerEndPause o s).pendingMotion = s.pendingMotion
           exact triggerEndPause_pendingMotion o s)

theorem processCycleCompletion_pivot (o : TickOracle) (t : MachineState) :
    (processCycleCompletion o t).params = t.params ∧
    (processCycleCompletion o t).minStep = t.minStep ∧
    (processCycleCompletion o t).maxStep = t.maxStep ∧
    (processCycleCompletion o t).stats = t.stats ∧
    (processCycleCompletion o t).currentStep = t.currentStep ∧
    ((processCycleCompletion o t).movingForward = true ∨
      (processCycleCompletion o t).motionPauseState.isPausing = true) ∧
    ((processCycleCompletion o t).motion = t.motion ∨
      (t.pendingMotion.hasChanges = true ∧
       (processCycleCompletion o t).motion.startPositionMM = t.pendingMotion.startPositionMM ∧
       (processCycleCompletion o t).motion.targetDistanceMM = t.pendingMotion.distanceMM ∧
       (processCycleCompletion o t).motion.speedLevelForward = t.pendingMotion.speedLevelForward ∧
       (processCycleCompletion o t).motion.speedLevelBackward = t.pendingMotion.speedLevelBackward ∧
       (processCycleCompletion o t).pendingMotion.hasChanges = false)) := by
  unfold processCycleCompletion applyPendingChanges handleCyclePause measureCycleTime
    recalcStepPositions calculateStepDelay
  dsimp only
  by_cases h1 : t.pendingMotion.hasChanges = true
  · rw [if_pos h1]
    dsimp only
    by_cases h2 : t.motion.cyclePause.enabled = true
    · rw [if_pos h2]
      exact ⟨rfl, rfl, rfl, rfl, rfl, Or.inr rfl, Or.inr ⟨h1, rfl, rfl, rfl, rfl, rfl⟩⟩
    · rw [if_neg h2]
      exact ⟨rfl, rfl, rfl, rfl, rfl, Or.inl rfl, Or.inr ⟨h1, rfl, rfl, rfl, rfl, rfl⟩⟩
  · rw [if_neg h1]
    by_cases h2 : t.motion.cyclePause.enabled = true
    · rw [if_pos h2]
      exact ⟨rfl, rfl, rfl, rfl, rfl, Or.inr rfl, Or.inl rfl⟩
    · rw [if_neg h2]
      exact ⟨rfl, rfl, rfl, rfl, rfl, Or.inl rfl, Or.inl rfl⟩

theorem stepCompletion_facts (o : TickOracle) (c : Prop) [Decidable c] (u : MachineState) :
    (processCycleCompletion o (resetRandomTurnback (if c then triggerEndPause o u else u))).params = u.params ∧
    (processCycleCompletion o (resetRandomTurnback (if c then triggerEndPause o u else u))).minStep = u.minStep ∧
    (processCycleCompletion o (resetRandomTurnback (if c then triggerEndPause o u else u))).maxStep = u.maxStep ∧
    (processCycleCompletion o (resetRandomTurnback (if c then triggerEndPause o u else u))).stats = u.stats ∧
    (processCycleCompletion o (resetRandomTurnback (if c then triggerEndPause o u else u))).currentStep = u.currentStep ∧
    ((processCycleCompletion o (resetRandomTurnback (if c then triggerEndPause o u else u))).movingForward = true ∨
      (processCycleCompletion o (resetRandomTurnback (if c then triggerEndPause o u else u))).motionPauseState.isPausing = true) ∧
    ((processCycleCompletion o (resetRandomTurnback (if c then triggerEndPause o u else u))).motion = u.motion ∨
      (u.pendingMotion.hasChanges = true ∧
       (processCycleCompletion o (resetRandomTurnback (if c then triggerEndPause o u else u))).motion.startPositionMM = u.pendingMotion.startPositionMM ∧
       (processCycleCompletion o (resetRandomTurnback (if c then triggerEndPause o u else u))).motion.targetDistanceMM = u.pendingMotion.distanceMM ∧
       (processCycleCompletion o (resetRandomTurnback (if c then triggerEndPause o u else u))).motion.speedLevelForward = u.pendingMotion.speedLevelForward ∧
       (processCycleCompletion o (resetRandomTurnback (if c then triggerEndPause o u else u))).motion.speedLevelBackward = u.pendingMotion.speedLevelBackward ∧
       (processCycleCompletion o (resetRandomTurnback (if c then triggerEndPause o u else u))).pendingMotion.hasChanges = false)) := by
  by_cases h : c
  · rw [if_pos h]
    obtain ⟨z, hz⟩ := triggerEndPause_shape o u
    rw [hz]
    exact processCycleCompletion_pivot o (resetRandomTurnback { u with zoneEffectState := z })
  · rw [if_neg h]
    exact processCycleCompletion_pivot o (resetRandomTurnback u)

theorem doStepBackward_facts (o : TickOracle) (s : MachineState) :
    (doStepBackward o s).motion = s.motion ∨
    (s.pendingMotion.hasChanges = true ∧
     s.hasReachedStartStep = true ∧
     (doStepBackward o s).currentStep = s.currentStep - 1 ∧
     (doStepBackward o s).currentStep ≤ s.startStep ∧
     ((doStepBackward o s).movingForward = true ∨
       (doStepBackward o s).motionPauseState.isPausing = true) ∧
     (doStepBackward o s).motion.startPositionMM = s.pendingMotion.startPositionMM ∧
     (doStepBackward o s).motion.targetDistanceMM = s.pendingMotion.distanceMM ∧
     (doStepBackward o s).motion.speedLevelForward = s.pendingMotion.speedLevelForward ∧
     (doStepBackward o s).motion.speedLevelBackward = s.pendingMotion.speedLevelBackward ∧
     (doStepBackward o s).pendingMotion.hasChanges = false) := by
  unfold doStepBackward
  by_cases h1 : checkAndCorrectDriftStart s = true
  · rw [if_pos h1]
    exact Or.inl rfl
  · rw [if_neg h1]
    by_cases h2 : hardDriftStartFault o s = true
    · rw [if_pos h2]
      exact Or.inl rfl
    · rw [if_neg h2]
      dsimp only
      by_cases h3 : s.minStep + s.params.wasAtStartThresholdSteps < s.currentStep
      · rw [if_pos h3]
        dsimp only
        by_cases h4 : s.currentStep - 1 ≤ s.startStep ∧ s.hasReachedStartStep = true
        · rw [if_pos h4]
          obtain ⟨hpa, hmi, hma, hst, hcs, hmv, hmot⟩ := stepCompletion_facts o
            (s.zoneEffect.enabled = true ∧ s.zoneEffect.endPauseEnabled = true ∧
              s.zoneEffect.enableStart = true)
            { s with wasAtStart := false, currentStep := s.currentStep - 1,
                     stats := s.stats.trackDelta (s.currentStep - 1) }
          rcases hmot with hsame | ⟨hch, ha, hb, hc, hd, hcf⟩
          · exact Or.inl hsame
          · refine Or.inr ⟨hch, h4.2, hcs, ?_, hmv, ha, hb, hc, hd, hcf⟩
            rw [hcs]
            exact h4.1
        · rw [if_neg h4]
          exact Or.inl rfl
      · rw [if_neg h3]
        by_cases h4 : s.currentStep - 1 ≤ s.startStep ∧ s.hasReachedStartStep = true
        · rw [if_pos h4]
          obtain ⟨hpa, hmi, hma, hst, hcs, hmv, hmot⟩ := stepCompletion_facts o
            (s.zoneEffect.enabled = true ∧ s.zoneEffect.endPauseEnabled = true ∧
              s.zoneEffect.enableStart = true)
            { s with currentStep := s.currentStep - 1,
                     stats := s.stats.trackDelta (s.currentStep - 1) }
          rcases hmot with hsame | ⟨hch, ha, hb, hc, hd, hcf⟩
          · exact Or.inl hsame
          · refine Or.inr ⟨hch, h4.2, hcs, ?_, hmv, ha, hb, hc, hd, hcf⟩
            rw [hcs]
            exact h4.1
        · rw [if_neg h4]
          exact Or.inl rfl

theorem addDistance_total_le (st : StatsTracking) (d : ℤ) :
    st.totalDistanceTraveled ≤ (st.addDistance d).totalDistanceTraveled := by
  unfold StatsTracking.addDistance
  split_ifs <;> simp

theorem trackDelta_total_le (st : StatsTracking) (p : ℤ) :
    st.totalDistanceTraveled ≤ (st.trackDelta p).totalDistanceTraveled := by
  unfold StatsTracking.trackDelta
  dsimp only
  exact addDistance_total_le st _

theorem doStepForward_master (o : TickOracle) (v : MachineState) :
    (doStepForward o v).params = v.params ∧
    (doStepForward o v).minStep = v.minStep ∧
    (doStepForward o v).maxStep = v.maxStep ∧
    v.stats.totalDistanceTraveled ≤ (doStepForward o v).stats.totalDistanceTraveled ∧
    (doStepForward o v).motion = v.motion ∧
    (doStepForward o v).pendingMotion = v.pendingMotion ∧
    ((doStepForward o v).currentStep = v.currentStep ∨
      ((doStepForward o v).currentStep = v.currentStep + 1 ∧
       v.currentStep + 1 ≤ v.targetStep ∧ v.currentStep ≤ v.maxStep)) := by
  unfold doStepForward
  by_cases h1 : checkAndCorrectDriftEnd v = true
  · rw [if_pos h1]
    exact ⟨rfl, rfl, rfl, le_refl _, rfl, rfl, Or.inl rfl⟩
  · rw [if_neg h1]
    by_cases h2 : hardDriftEndFault o v = true
    · rw [if_pos h2]
      exact ⟨rfl, rfl, rfl, le_refl _, rfl, rfl, Or.inl rfl⟩
    · rw [if_neg h2]
      dsimp only
      by_cases h3 : v.targetStep < v.currentStep + 1
      · rw [if_pos h3]
        by_cases h4 : v.zoneEffect.enabled = true ∧ v.zoneEffect.endPauseEnabled = true ∧
            v.zoneEffect.enableEnd = true
        · rw [if_pos h4]
          obtain ⟨z, hz⟩ := triggerEndPause_shape o v
          rw [hz]
          exact ⟨rfl, rfl, rfl, le_refl _, rfl, rfl, Or.inl rfl⟩
        · rw [if_neg h4]
          exact ⟨rfl, rfl, rfl, le_refl _, rfl, rfl, Or.inl rfl⟩
      · rw [if_neg h3]
        have h1a : ¬(v.maxStep < v.currentStep) := by
          simpa [checkAndCorrectDriftEnd] using h1
        by_cases h5 : ¬(v.hasReachedStartStep = true) ∧ v.startStep ≤ v.currentStep
        · rw [if_pos h5]
          exact ⟨rfl, rfl, rfl, trackDelta_total_le _ _, rfl, rfl,
            Or.inr ⟨rfl, by omega, by omega⟩⟩
        · rw [if_neg h5]
          exact ⟨rfl, rfl, rfl, trackDelta_total_le _ _, rfl, rfl,
            Or.inr ⟨rfl, by omega, by omega⟩⟩

theorem doStepBackward_master (o : TickOracle) (v : MachineState) :
    (doStepBackward o v).params = v.params ∧
    (doStepBackward o v).minStep = v.minStep ∧
    (doStepBackward o v).maxStep = v.maxStep ∧
    v.stats.totalDistanceTraveled ≤ (doStepBackward o v).stats.totalDistanceTraveled ∧
    ((doStepBackward o v).currentStep = v.currentStep ∨
      ((doStepBackward o v).currentStep = v.currentStep - 1 ∧ v.minStep ≤ v.currentStep)) := by
  unfold doStepBackward
  by_cases h1 : checkAndCorrectDriftStart v = true
  · rw [if_pos h1]
    exact ⟨rfl, rfl, rfl, le_refl _, Or.inl rfl⟩
  · rw [if_neg h1]
    have h1a : ¬(v.currentStep < v.minStep) := by
      simpa [checkAndCorrectDriftStart] using h1
    by_cases h2 : hardDriftStartFault o v = true
    · rw [if_pos h2]
      exact ⟨rfl, rfl, rfl, le_refl _, Or.inl rfl⟩
    · rw [if_neg h2]
      dsimp only
      by_cases h3 : v.minStep + v.params.wasAtStartThresholdSteps < v.currentStep
      · rw [if_pos h3]
        dsimp only
        by_cases h4 : v.currentStep - 1 ≤ v.startStep ∧ v.hasReachedStartStep = true
        · rw [if_pos h4]
          obtain ⟨hpa, hmi, hma, hst, hcs, hmv, hmot⟩ := stepCompletion_facts o
            (v.zoneEffect.enabled = true ∧ v.zoneEffect.endPauseEnabled = true ∧
              v.zoneEffect.enableStart = true)
            { v with wasAtStart := false, currentStep := v.currentStep - 1,
                     stats := v.stats.trackDelta (v.currentStep - 1) }
          refine ⟨hpa, hmi, hma, ?_, Or.inr ⟨hcs, by omega⟩⟩
          exact le_of_le_of_eq (trackDelta_total_le v.stats (v.currentStep - 1))
            (congrArg StatsTracking.totalDistanceTraveled hst.symm)
        · rw [if_neg h4]
          exact ⟨rfl, rfl, rfl, trackDelta_total_le _ _, Or.inr ⟨rfl, by omega⟩⟩
      · rw [if_neg h3]
        by_cases h4 : v.currentStep - 1 ≤ v.startStep ∧ v.hasReachedStartStep = true
        · rw [if_pos h4]
          obtain ⟨hpa, hmi, hma, hst, hcs, hmv, hmot⟩ := stepCompletion_facts o
            (v.zoneEffect.enabled = true ∧ v.zoneEffect.endPauseEnabled = true ∧
              v.zoneEffect.enableStart = true)
            { v with currentStep := v.currentStep - 1,
                     stats := v.stats.trackDelta (v.currentStep - 1) }
          refine ⟨hpa, hmi, hma, ?_, Or.inr ⟨hcs, by omega⟩⟩
          exact le_of_le_of_eq (trackDelta_total_le v.stats (v.currentStep - 1))
            (congrArg StatsTracking.totalDistanceTraveled hst.symm)
        · rw [if_neg h4]
          exact ⟨rfl, rfl, rfl, trackDelta_total_le _ _, Or.inr ⟨rfl, by omega⟩⟩

theorem doStep_master (o : TickOracle) (w : MachineState) :
    (doStep o w).params = w.params ∧
    (doStep o w).minStep = w.minStep ∧
    (doStep o w).maxStep = w.maxStep ∧
    w.stats.totalDistanceTraveled ≤ (doStep o w).stats.totalDistanceTraveled ∧
    ((doStep o w).currentStep = w.currentStep ∨
      ((doStep o w).currentStep = w.currentStep + 1 ∧
       w.currentStep + 1 ≤ w.targetStep ∧ w.currentStep ≤ w.maxStep) ∨
      ((doStep o w).currentStep = w.currentStep - 1 ∧ w.minStep ≤ w.currentStep)) ∧
    ((doStep o w).motion = w.motion ∨
      (w.pendingMotion.hasChanges = true ∧ w.hasReachedStartStep = true ∧
       (doStep o w).currentStep = w.currentStep - 1 ∧
       (doStep o w).currentStep ≤ w.startStep ∧
       ((doStep o w).movingForward = true ∨
         (doStep o w).motionPauseState.isPausing = true) ∧
       (doStep o w).motion.startPositionMM = w.pendingMotion.startPositionMM ∧
       (doStep o w).motion.targetDistanceMM = w.pendingMotion.distanceMM ∧
       (doStep o w).motion.speedLevelForward = w.pendingMotion.speedLevelForward ∧
       (doStep o w).motion.speedLevelBackward = w.pendingMotion.speedLevelBackward ∧
       (doStep o w).pendingMotion.hasChanges = false)) := by
  unfold doStep
  by_cases hb : w.movingForward = true
  · rw [if_pos hb]
    obtain ⟨hpa, hmi, hma, hst, hmot, hpend, hcur⟩ := doStepForward_master o w
    refine ⟨hpa, hmi, hma, hst, ?_, Or.inl hmot⟩
    rcases hcur with h | h
    · exact Or.inl h
    · exact Or.inr (Or.inl h)
  · rw [if_neg hb]
    obtain ⟨hpa, hmi, hma, hst, hcur⟩ := doStepBackward_master o w
    refine ⟨hpa, hmi, hma, hst, ?_, ?_⟩
    · rcases hcur with h | h
      · exact Or.inl h
      · exact Or.inr (Or.inr h)
    · rcases doStepBackward_facts o w with h | hfacts
      · exact Or.inl h
      · exact Or.inr hfacts

theorem stepPhase_master (o : TickOracle) (v : MachineState) :
    (processStepPhase o v).params = v.params ∧
    (processStepPhase o v).minStep = v.minStep ∧
    (processStepPhase o v).maxStep = v.maxStep ∧
    v.stats.totalDistanceTraveled ≤ (processStepPhase o v).stats.totalDistanceTraveled ∧
    ((processStepPhase o v).currentStep = v.currentStep ∨
      ((processStepPhase o v).currentStep = v.currentStep + 1 ∧
       v.currentStep + 1 ≤ v.targetStep ∧ v.currentStep ≤ v.maxStep) ∨
      ((processStepPhase o v).currentStep = v.currentStep - 1 ∧ v.minStep ≤ v.currentStep)) ∧
    ((processStepPhase o v).motion = v.motion ∨
      (v.pendingMotion.hasChanges = true ∧ v.hasReachedStartStep = true ∧
       (processStepPhase o v).currentStep = v.currentStep - 1 ∧
       (processStepPhase o v).currentStep ≤ v.startStep ∧
       ((processStepPhase o v).movingForward = true ∨
         (processStepPhase o v).motionPauseState.isPausing = true) ∧
       (processStepPhase o v).motion.startPositionMM = v.pendingMotion.startPositionMM ∧
       (processStepPhase o v).motion.targetDistanceMM = v.pendingMotion.distanceMM ∧
       (processStepPhase o v).motion.speedLevelForward = v.pendingMotion.speedLevelForward ∧
       (processStepPhase o v).motion.speedLevelBackward = v.pendingMotion.speedLevelBackward ∧
       (processStepPhase o v).pendingMotion.hasChanges = false)) := by
  unfold processStepPhase
  by_cases hz : v.zoneEffect.enabled = true ∧ v.hasReachedStartStep = true
  · rw [if_pos hz]
    dsimp only
    obtain ⟨z, b, hw⟩ := applyZoneEffects_shape o v
    rw [hw]
    dsimp only
    by_cases hzp : z.isPausing = true
    · rw [if_pos hzp]
      exact ⟨rfl, rfl, rfl, le_refl _, Or.inl rfl, Or.inl rfl⟩
    · rw [if_neg hzp]
      by_cases hd : o.stepDue = true
      · rw [if_pos hd]
        obtain ⟨hpa, hmi, hma, hst, hcur, hmot⟩ :=
          doStep_master o { v with zoneEffectState := z, movingForward := b }
        exact ⟨hpa, hmi, hma, hst, hcur, hmot⟩
      · rw [if_neg hd]
        exact ⟨rfl, rfl, rfl, le_refl _, Or.inl rfl, Or.inl rfl⟩
  · rw [if_neg hz]
    by_cases hd : o.stepDue = true
    · rw [if_pos hd]
      exact doStep_master o v
    · rw [if_neg hd]
      exact ⟨rfl, rfl, rfl, le_refl _, Or.inl rfl, Or.inl rfl⟩

theorem process_master (o : TickOracle) (s : MachineState) :
    (process o s).params = s.params ∧
    (process o s).minStep = s.minStep ∧
    (process o s).maxStep = s.maxStep ∧
    s.stats.totalDistanceTraveled ≤ (process o s).stats.totalDistanceTraveled ∧
    ((process o s).currentStep = s.currentStep ∨
      (s.currentState = SystemState.STATE_RUNNING ∧
        (((process o s).currentStep = s.currentStep + 1 ∧
          s.currentStep + 1 ≤ s.targetStep ∧ s.currentStep ≤ s.maxStep) ∨
         ((process o s).currentStep = s.currentStep - 1 ∧ s.minStep ≤ s.currentStep)))) ∧
    ((process o s).motion = s.motion ∨
      (s.pendingMotion.hasChanges = true ∧ s.hasReachedStartStep = true ∧
       (process o s).currentStep = s.currentStep - 1 ∧
       (process o s).currentStep ≤ s.startStep ∧
       ((process o s).movingForward = true ∨
         (process o s).motionPauseState.isPausing = true) ∧
       (process o s).motion.startPositionMM = s.pendingMotion.startPositionMM ∧
       (process o s).motion.targetDistanceMM = s.pendingMotion.distanceMM ∧
       (process o s).motion.speedLevelForward = s.pendingMotion.speedLevelForward ∧
       (process o s).motion.speedLevelBackward = s.pendingMotion.speedLevelBackward ∧
       (process o s).pendingMotion.hasChanges = false)) := by
  unfold process checkAndHandleEndPause
  by_cases hr : s.currentState = SystemState.STATE_RUNNING
  · rw [if_neg (not_not_intro hr)]
    by_cases hp : s.motionPauseState.isPausing = true
    · rw [if_pos hp]
      by_cases he : o.cyclePauseElapsed = true
      · rw [if_pos he]
        exact ⟨rfl, rfl, rfl, le_refl _, Or.inl rfl, Or.inl rfl⟩
      · rw [if_neg he]
        exact ⟨rfl, rfl, rfl, le_refl _, Or.inl rfl, Or.inl rfl⟩
    · rw [if_neg hp]
      by_cases hz : s.zoneEffectState.isPausing = true
      · rw [if_pos hz]
        by_cases hee : o.endPauseElapsed = true
        · rw [if_pos hee]
          dsimp only
          obtain ⟨hpa, hmi, hma, hst, hcur, hmot⟩ := stepPhase_master o
            { s with zoneEffectState := { s.zoneEffectState with isPausing := false } }
          refine ⟨hpa, hmi, hma, hst, ?_, hmot⟩
          rcases hcur with h | h | h
          · exact Or.inl h
          · exact Or.inr ⟨hr, Or.inl h⟩
          · exact Or.inr ⟨hr, Or.inr h⟩
        · rw [if_neg hee]
          exact ⟨rfl, rfl, rfl, le_refl _, Or.inl rfl, Or.inl rfl⟩
      · rw [if_neg hz]
        dsimp only
        obtain ⟨hpa, hmi, hma, hst, hcur, hmot⟩ := stepPhase_master o s
        refine ⟨hpa, hmi, hma, hst, ?_, hmot⟩
        rcases hcur with h | h | h
        · exact Or.inl h
        · exact Or.inr ⟨hr, Or.inl h⟩
        · exact Or.inr ⟨hr, Or.inr h⟩
  · rw [if_pos hr]
    exact ⟨rfl, rfl, rfl, le_refl _, Or.inl rfl, Or.inl rfl⟩

theorem setDistance_running (d : ℚ) (s : MachineState)
    (hrun : s.currentState = SystemState.STATE_RUNNING) :
    (setDistance d s).motion = s.motion ∧
    (setDistance d s).pendingMotion.hasChanges = true := by
  unfold setDistance initPendingFromCurrent
  dsimp only
  rw [if_pos hrun]
  split_ifs <;> exact ⟨rfl, rfl⟩

theorem setStartPosition_running (d : ℚ) (s : MachineState)
    (hrun : s.currentState = SystemState.STATE_RUNNING) :
    (setStartPosition d s).motion = s.motion ∧
    (setStartPosition d s).pendingMotion.hasChanges = true := by
  unfold setStartPosition initPendingFromCurrent
  dsimp only
  rw [if_pos hrun]
  split_ifs <;> exact ⟨rfl, rfl⟩

theorem setSpeedInternal_running (lv : ℚ) (fwd : Bool) (s : MachineState)
    (hrun : s.currentState = SystemState.STATE_RUNNING) :
    (setSpeedInternal lv fwd s).motion = s.motion ∧
    (setSpeedInternal lv fwd s).pendingMotion.hasChanges = true := by
  unfold setSpeedInternal initPendingFromCurrent
  dsimp only
  rw [if_pos hrun]
  split_ifs <;> exact ⟨rfl, rfl⟩

end BaseMovement

/-- C9 witness: the amended theorem evaluated at the uncalibrated boot state
and at a calibrated ERROR state. -/
theorem c9_start_refusal_witness :
    initState.totalDistanceMM = 0 ∧
    (BaseMovement.start 50 5 none initState).currentState = SystemState.STATE_ERROR ∧
    errorCalibratedState.totalDistanceMM ≠ 0 ∧
    (BaseMovement.start 50 5 (some 200) errorCalibratedState).currentState =
      SystemState.STATE_ERROR :=
  ⟨rfl,
   ((c9_start_refusal initState 50 5).1 rfl).2.2,
   by norm_num [errorCalibratedState, initState],
   ((c9_start_refusal errorCalibratedState 50 5).2 (some 200) rfl
      (by norm_num [errorCalibratedState, initState])).1⟩


/-! Per-command statistics frame lemmas, used for C6. -/

namespace BaseMovement

theorem saveCurrentSessionStats_total (s : MachineState) :
    (saveCurrentSessionStats s).stats.totalDistanceTraveled = s.stats.totalDistanceTraveled := by
  unfold saveCurrentSessionStats
  dsimp only
  split_ifs <;> rfl

theorem stop_total (s : MachineState) :
    (stop s).stats.totalDistanceTraveled = s.stats.totalDistanceTraveled := by
  unfold stop
  dsimp only
  split_ifs <;> simp [saveCurrentSessionStats_total]

theorem togglePause_total (s : MachineState) :
    (togglePause s).stats.totalDistanceTraveled = s.stats.totalDistanceTraveled := by
  unfold togglePause
  dsimp only
  split_ifs <;> simp [saveCurrentSessionStats_total]

theorem returnToStart_total (oc : Option ℚ) (s : MachineState) :
    (returnToStart oc s).stats.totalDistanceTraveled = s.stats.totalDistanceTraveled := by
  unfold returnToStart
  dsimp only
  cases oc <;> split_ifs <;> simp [stop_total]

theorem setDistance_total (d : ℚ) (s : MachineState) :
    (setDistance d s).stats.totalDistanceTraveled = s.stats.totalDistanceTraveled := by
  unfold setDistance initPendingFromCurrent recalcStepPositions calculateStepDelay
  dsimp only
  split_ifs <;> rfl

theorem setStartPosition_total (d : ℚ) (s : MachineState) :
    (setStartPosition d s).stats.totalDistanceTraveled = s.stats.totalDistanceTraveled := by
  unfold setStartPosition initPendingFromCurrent recalcStepPositions calculateStepDelay
  dsimp only
  split_ifs <;> rfl

theorem setSpeedInternal_total (lv : ℚ) (fwd : Bool) (s : MachineState) :
    (setSpeedInternal lv fwd s).stats.totalDistanceTraveled = s.stats.totalDistanceTraveled := by
  unfold setSpeedInternal initPendingFromCurrent calculateStepDelay
  dsimp only
  split_ifs <;> rfl

theorem startCore_total (d lv : ℚ) (t : MachineState) :
    (startCore d lv t).stats.totalDistanceTraveled = t.stats.totalDistanceTraveled := by
  unfold startCore
  dsimp only
  split_ifs <;> rfl

theorem start_total (d lv : ℚ) (oc : Option ℚ) (s : MachineState) :
    (start d lv oc s).stats.totalDistanceTraveled = s.stats.totalDistanceTraveled := by
  unfold start
  dsimp only
  split_ifs <;> rw [startCore_total] <;> first | rfl | (cases oc <;> rfl)

theorem startCalibration_total (oc : Option ℚ) (s : MachineState) :
    (startCalibration oc s).stats.totalDistanceTraveled = s.stats.totalDistanceTraveled := by
  cases oc <;> rfl

theorem setZoneEffect_total (cfg : ZoneEffectConfig) (s : MachineState) :
    (setZoneEffect cfg s).stats.totalDistanceTraveled = s.stats.totalDistanceTraveled := by
  unfold setZoneEffect validateZoneEffect
  dsimp only
  split_ifs <;> rfl

end BaseMovement

/-- Statistics monotonicity of one transition, any label. -/
theorem stepFn_stats_total (l : Label) (s : MachineState) :
    s.stats.totalDistanceTraveled ≤ (stepFn l s).stats.totalDistanceTraveled := by
  cases l with
  | cmdSetDistance d => exact le_of_eq (BaseMovement.setDistance_total d s).symm
  | cmdSetStartPosition d => exact le_of_eq (BaseMovement.setStartPosition_total d s).symm
  | cmdSetSpeedForward lv => exact le_of_eq (BaseMovement.setSpeedInternal_total lv true s).symm
  | cmdSetSpeedBackward lv => exact le_of_eq (BaseMovement.setSpeedInternal_total lv false s).symm
  | cmdStart d lv oc => exact le_of_eq (BaseMovement.start_total d lv oc s).symm
  | cmdStop => exact le_of_eq (BaseMovement.stop_total s).symm
  | cmdTogglePause => exact le_of_eq (BaseMovement.togglePause_total s).symm
  | cmdReturnToStart oc => exact le_of_eq (BaseMovement.returnToStart_total oc s).symm
  | cmdCalibrate oc => exact le_of_eq (BaseMovement.startCalibration_total oc s).symm
  | cmdSetZoneEffect cfg => exact le_of_eq (BaseMovement.setZoneEffect_total cfg s).symm
  | tick o => exact (BaseMovement.process_master o s).2.2.2.1

/-- **C6** (confirmed): the lifetime step counter never decreases.  Each
tracking primitive of `StatsTracking` leaves `totalDistanceTraveled` unchanged
or increases it — `addDistance` adds exactly the positive deltas and ignores
the rest, `syncPosition` and `markSaved` never touch it — and over the whole
engine model the counter is monotonically non-decreasing across every single
transition and every finite sequence of commands and ticks. -/
theorem c6_stats_monotone :
    (∀ (st : StatsTracking) (p : ℤ),
       st.totalDistanceTraveled ≤ (st.trackDelta p).totalDistanceTraveled) ∧
    (∀ (st : StatsTracking) (d : ℤ),
       (st.addDistance d).totalDistanceTraveled =
         if 0 < d then st.totalDistanceTraveled + d.toNat else st.totalDistanceTraveled) ∧
    (∀ (st : StatsTracking) (p : ℤ),
       (st.syncPosition p).totalDistanceTraveled = st.totalDistanceTraveled) ∧
    (∀ st : StatsTracking,
       st.markSaved.totalDistanceTraveled = st.totalDistanceTraveled) ∧
    (∀ (l : Label) (s : MachineState),
       s.stats.totalDistanceTraveled ≤ (stepFn l s).stats.totalDistanceTraveled) ∧
    (∀ (ls : List Label) (s : MachineState),
       s.stats.totalDistanceTraveled ≤ (run s ls).stats.totalDistanceTraveled) := by
  refine ⟨BaseMovement.trackDelta_total_le, ?_, fun st p => rfl, fun st => rfl,
          stepFn_stats_total, ?_⟩
  · intro st d
    unfold StatsTracking.addDistance
    split_ifs <;> rfl
  · intro ls
    induction ls with
    | nil => exact fun s => le_refl _
    | cons l rest ih =>
        exact fun s => le_trans (stepFn_stats_total l s) (ih (stepFn l s))

/-! Per-command frame lemmas on the position window (`params`, `minStep`,
`maxStep`, `currentStep`), used for the C1 induction. -/

namespace BaseMovement

theorem saveCurrentSessionStats_core (s : MachineState) :
    (saveCurrentSessionStats s).params = s.params ∧
    (saveCurrentSessionStats s).minStep = s.minStep ∧
    (saveCurrentSessionStats s).maxStep = s.maxStep ∧
    (saveCurrentSessionStats s).currentStep = s.currentStep := by
  unfold saveCurrentSessionStats
  dsimp only
  split_ifs <;> exact ⟨rfl, rfl, rfl, rfl⟩

theorem setDistance_core (d : ℚ) (s : MachineState) :
    (setDistance d s).params = s.params ∧
    (setDistance d s).minStep = s.minStep ∧
    (setDistance d s).maxStep = s.maxStep ∧
    (setDistance d s).currentStep = s.currentStep := by
  unfold setDistance initPendingFromCurrent
  dsimp only
  split_ifs <;> exact ⟨rfl, rfl, rfl, rfl⟩

theorem setStartPosition_core (d : ℚ) (s : MachineState) :
    (setStartPosition d s).params = s.params ∧
    (setStartPosition d s).minStep = s.minStep ∧
    (setStartPosition d s).maxStep = s.maxStep ∧
    (setStartPosition d s).currentStep = s.currentStep := by
  unfold setStartPosition initPendingFromCurrent
  dsimp only
  split_ifs <;> exact ⟨rfl, rfl, rfl, rfl⟩

theorem setSpeedInternal_core (lv : ℚ) (fwd : Bool) (s : MachineState) :
    (setSpeedInternal lv fwd s).params = s.params ∧
    (setSpeedInternal lv fwd s).minStep = s.minStep ∧
    (setSpeedInternal lv fwd s).maxStep = s.maxStep ∧
    (setSpeedInternal lv fwd s).currentStep = s.currentStep := by
  unfold setSpeedInternal initPendingFromCurrent
  dsimp only
  split_ifs <;> exact ⟨rfl, rfl, rfl, rfl⟩

theorem stop_core (s : MachineState) :
    (stop s).params = s.params ∧
    (stop s).minStep = s.minStep ∧
    (stop s).maxStep = s.maxStep ∧
    (stop s).currentStep = s.currentStep := by
  unfold stop
  dsimp only
  split_ifs <;>
    first
      | exact ⟨rfl, rfl, rfl, rfl⟩
      | exact ⟨(saveCurrentSessionStats_core _).1, (saveCurrentSessionStats_core _).2.1,
          (saveCurrentSessionStats_core _).2.2.1, (saveCurrentSessionStats_core _).2.2.2⟩

theorem togglePause_core (s : MachineState) :
    (togglePause s).params = s.params ∧
    (togglePause s).minStep = s.minStep ∧
    (togglePause s).maxStep = s.maxStep ∧
    (togglePause s).currentStep = s.currentStep := by
  unfold togglePause
  dsimp only
  split_ifs <;>
    first
      | exact ⟨rfl, rfl, rfl, rfl⟩
      | exact ⟨(saveCurrentSessionStats_core _).1, (saveCurrentSessionStats_core _).2.1,
          (saveCurrentSessionStats_core _).2.2.1, (saveCurrentSessionStats_core _).2.2.2⟩

theorem setZoneEffect_core (cfg : ZoneEffectConfig) (s : MachineState) :
    (setZoneEffect cfg s).params = s.params ∧
    (setZoneEffect cfg s).minStep = s.minStep ∧
    (setZoneEffect cfg s).maxStep = s.maxStep ∧
    (setZoneEffect cfg s).currentStep = s.currentStep := by
  unfold setZoneEffect validateZoneEffect
  dsimp only
  split_ifs <;> exact ⟨rfl, rfl, rfl, rfl⟩

theorem startCalibration_core (oc : Option ℚ) (s : MachineState) :
    (startCalibration oc s).params = s.params ∧
    (((startCalibration oc s).minStep = s.minStep ∧
      (startCalibration oc s).maxStep = s.maxStep ∧
      (startCalibration oc s).currentStep = s.currentStep) ∨
     (∃ len, oc = some len ∧ (startCalibration oc s).minStep = 0 ∧
      (startCalibration oc s).maxStep = MovementMath.mmToSteps s.params len ∧
      (startCalibration oc s).currentStep = 0)) := by
  cases oc with
  | none => exact ⟨rfl, Or.inl ⟨rfl, rfl, rfl⟩⟩
  | some len => exact ⟨rfl, Or.inr ⟨len, rfl, rfl, rfl, rfl⟩⟩

theorem returnToStart_core (oc : Option ℚ) (s : MachineState) :
    (returnToStart oc s).params = s.params ∧
    (returnToStart oc s).maxStep = s.maxStep ∧
    (((returnToStart oc s).minStep = s.minStep ∧
      (returnToStart oc s).currentStep = s.currentStep) ∨
     ((returnToStart oc s).minStep = 0 ∧ (returnToStart oc s).currentStep = 0)) := by
  unfold returnToStart
  dsimp only
  cases oc with
  | none =>
      split_ifs
      · exact ⟨(stop_core s).1, (stop_core s).2.2.1,
          Or.inl ⟨(stop_core s).2.1, (stop_core s).2.2.2⟩⟩
      · exact ⟨rfl, rfl, Or.inl ⟨rfl, rfl⟩⟩
  | some len =>
      split_ifs
      · exact ⟨(stop_core s).1, (stop_core s).2.2.1, Or.inr ⟨rfl, rfl⟩⟩
      · exact ⟨rfl, rfl, Or.inr ⟨rfl, rfl⟩⟩

theorem startCore_core (d lv : ℚ) (t : MachineState) :
    (startCore d lv t).params = t.params ∧
    (startCore d lv t).minStep = t.minStep ∧
    (startCore d lv t).maxStep = t.maxStep ∧
    (startCore d lv t).currentStep = t.currentStep := by
  unfold startCore
  dsimp only
  split_ifs <;> exact ⟨rfl, rfl, rfl, rfl⟩

theorem start_core (d lv : ℚ) (oc : Option ℚ) (s : MachineState) :
    (start d lv oc s).params = s.params ∧
    (((start d lv oc s).minStep = s.minStep ∧
      (start d lv oc s).maxStep = s.maxStep ∧
      (start d lv oc s).currentStep = s.currentStep) ∨
     (∃ len, oc = some len ∧ (start d lv oc s).minStep = 0 ∧
      (start d lv oc s).maxStep = MovementMath.mmToSteps s.params len ∧
      (start d lv oc s).currentStep = 0)) := by
  unfold start
  dsimp only
  cases oc with
  | none =>
      split_ifs <;>
        exact ⟨(startCore_core _ _ _).1,
          Or.inl ⟨(startCore_core _ _ _).2.1, (startCore_core _ _ _).2.2.1,
            (startCore_core _ _ _).2.2.2⟩⟩
  | some len =>
      split_ifs with h1 h2 h3
      · exact ⟨(startCore_core _ _ _).1,
          Or.inr ⟨len, rfl, (startCore_core _ _ _).2.1, (startCore_core _ _ _).2.2.1,
            (startCore_core _ _ _).2.2.2⟩⟩
      · exact ⟨(startCore_core _ _ _).1,
          Or.inl ⟨(startCore_core _ _ _).2.1, (startCore_core _ _ _).2.2.1,
            (startCore_core _ _ _).2.2.2⟩⟩
      · exact ⟨(startCore_core _ _ _).1,
          Or.inr ⟨len, rfl, (startCore_core _ _ _).2.1, (startCore_core _ _ _).2.2.1,
            (startCore_core _ _ _).2.2.2⟩⟩
      · exact ⟨(startCore_core _ _ _).1,
          Or.inl ⟨(startCore_core _ _ _).2.1, (startCore_core _ _ _).2.2.1,
            (startCore_core _ _ _).2.2.2⟩⟩

end BaseMovement

/-- Nonnegative travel lengths convert to nonnegative step counts. -/
theorem mmToSteps_nonneg (p : MathParams) (q : ℚ)
    (hp : 0 ≤ p.stepsPerMM) (hq : 0 ≤ q) : 0 ≤ MovementMath.mmToSteps p q := by
  unfold MovementMath.mmToSteps
  exact ratTrunc_nonneg (mul_nonneg hq hp)

/-- The inductive invariant is preserved by every valid label. -/
theorem Inv_preserved (s : MachineState) (l : Label)
    (hInv : Inv s) (hOK : OKLabel s l) : Inv (stepFn l s) := by
  obtain ⟨hSP, hmin, hmax, hlo, hhi, hrs⟩ := hInv
  obtain ⟨henv, hpost⟩ := hOK
  cases l with
  | cmdSetDistance d =>
      simp only [stepFn] at hpost ⊢
      obtain ⟨hp, h1, h2, h3⟩ := BaseMovement.setDistance_core d s
      exact ⟨by rw [hp]; exact hSP, by omega, by omega, by omega, by omega, hpost⟩
  | cmdSetStartPosition d =>
      simp only [stepFn] at hpost ⊢
      obtain ⟨hp, h1, h2, h3⟩ := BaseMovement.setStartPosition_core d s
      exact ⟨by rw [hp]; exact hSP, by omega, by omega, by omega, by omega, hpost⟩
  | cmdSetSpeedForward lv =>
      simp only [stepFn] at hpost ⊢
      obtain ⟨hp, h1, h2, h3⟩ := BaseMovement.setSpeedInternal_core lv true s
      exact ⟨by rw [hp]; exact hSP, by omega, by omega, by omega, by omega, hpost⟩
  | cmdSetSpeedBackward lv =>
      simp only [stepFn] at hpost ⊢
      obtain ⟨hp, h1, h2, h3⟩ := BaseMovement.setSpeedInternal_core lv false s
      exact ⟨by rw [hp]; exact hSP, by omega, by omega, by omega, by omega, hpost⟩
  | cmdStop =>
      simp only [stepFn] at hpost ⊢
      obtain ⟨hp, h1, h2, h3⟩ := BaseMovement.stop_core s
      exact ⟨by rw [hp]; exact hSP, by omega, by omega, by omega, by omega, hpost⟩
  | cmdTogglePause =>
      simp only [stepFn] at hpost ⊢
      obtain ⟨hp, h1, h2, h3⟩ := BaseMovement.togglePause_core s
      exact ⟨by rw [hp]; exact hSP, by omega, by omega, by omega, by omega, hpost⟩
  | cmdSetZoneEffect cfg =>
      simp only [stepFn] at hpost ⊢
      obtain ⟨hp, h1, h2, h3⟩ := BaseMovement.setZoneEffect_core cfg s
      exact ⟨by rw [hp]; exact hSP, by omega, by omega, by omega, by omega, hpost⟩
  | cmdCalibrate oc =>
      simp only [stepFn] at hpost ⊢
      obtain ⟨hp, hcase⟩ := BaseMovement.startCalibration_core oc s
      refine ⟨by rw [hp]; exact hSP, ?_, ?_, ?_, ?_, hpost⟩ <;>
        rcases hcase with ⟨h1, h2, h3⟩ | ⟨len, hlen, h1, h2, h3⟩
      · omega
      · omega
      · omega
      · have : 0 ≤ MovementMath.mmToSteps s.params len :=
          mmToSteps_nonneg s.params len (le_of_lt hSP)
            (le_of_lt (by simpa [LabelEnvOK, hlen] using henv))
        omega
      · omega
      · omega
      · omega
      · have : 0 ≤ MovementMath.mmToSteps s.params len :=
          mmToSteps_nonneg s.params len (le_of_lt hSP)
            (le_of_lt (by simpa [LabelEnvOK, hlen] using henv))
        omega
  | cmdReturnToStart oc =>
      simp only [stepFn] at hpost ⊢
      obtain ⟨hp, h2, hcase⟩ := BaseMovement.returnToStart_core oc s
      rcases hcase with ⟨h1, h3⟩ | ⟨h1, h3⟩ <;>
        exact ⟨by rw [hp]; exact hSP, by omega, by omega, by omega, by omega, hpost⟩
  | cmdStart d lv oc =>
      simp only [stepFn] at hpost ⊢
      obtain ⟨hp, hcase⟩ := BaseMovement.start_core d lv oc s
      refine ⟨by rw [hp]; exact hSP, ?_, ?_, ?_, ?_, hpost⟩ <;>
        rcases hcase with ⟨h1, h2, h3⟩ | ⟨len, hlen, h1, h2, h3⟩
      · omega
      · omega
      · omega
      · have : 0 ≤ MovementMath.mmToSteps s.params len :=
          mmToSteps_nonneg s.params len (le_of_lt hSP)
            (le_of_lt (by simpa [LabelEnvOK, hlen] using henv))
        omega
      · omega
      · omega
      · omega
      · have : 0 ≤ MovementMath.mmToSteps s.params len :=
          mmToSteps_nonneg s.params len (le_of_lt hSP)
            (le_of_lt (by simpa [LabelEnvOK, hlen] using henv))
        omega
  | tick o =>
      simp only [stepFn] at hpost ⊢
      obtain ⟨hp, h1, h2, _, hcur, _⟩ := BaseMovement.process_master o s
      refine ⟨by rw [hp]; exact hSP, by omega, by omega, ?_, ?_, hpost⟩
      · rcases hcur with h | ⟨hr, h | h⟩ <;> omega
      · rcases hcur with h | ⟨hr, h | h⟩
        · omega
        · obtain ⟨_, ⟨w1, w2, w3⟩, hss, hts, _, _⟩ := hrs hr
          have hts2 : s.targetStep ≤ s.maxStep := by rw [hts]; exact w3
          omega
        · omega

/-- Every reachable state satisfies the inductive invariant. -/
theorem ReachableOK_Inv (s : MachineState) (h : ReachableOK s) : Inv s := by
  induction h with
  | init =>
      refine ⟨?_, rfl, le_refl _, ?_, le_refl _, ?_⟩
      · show (0 : ℚ) < 6
        norm_num
      · show (0 : ℤ) - 1 ≤ 0
        norm_num
      · intro hr
        exact absurd hr (by decide)
  | step t l ht hOK ih => exact Inv_preserved t l ih hOK

/-- **C2** (confirmed): while the system is RUNNING on a calibrated travel,
every edit to the live VAET motion configuration (start position, distance,
forward/backward speed) leaves the live `motion` untouched and arms the
`pendingMotion` shadow; no socket command other than a motion-core tick ever
rewrites the live `motion`; and when a tick does rewrite it, the rewrite is
exactly the backward-to-forward pivot of `processCycleCompletion`: the shadow
was armed, the start latch was reached, the tick performed the final backward
step into `startStep`, the four live fields are overwritten from the shadow,
the shadow is disarmed, and the machine leaves the pivot either moving forward
or in a cycle pause — never mid-cycle. -/
theorem c2_pending_pivot_discipline (s : MachineState)
    (hrun : s.currentState = SystemState.STATE_RUNNING)
    (hTot : s.totalDistanceMM ≠ 0) :
    (∀ d, (BaseMovement.setDistance d s).motion = s.motion ∧
          (BaseMovement.setDistance d s).pendingMotion.hasChanges = true) ∧
    (∀ d, (BaseMovement.setStartPosition d s).motion = s.motion ∧
          (BaseMovement.setStartPosition d s).pendingMotion.hasChanges = true) ∧
    (∀ lv fwd, (BaseMovement.setSpeedInternal lv fwd s).motion = s.motion ∧
          (BaseMovement.setSpeedInternal lv fwd s).pendingMotion.hasChanges = true) ∧
    (∀ l : Label, (∀ o, l ≠ Label.tick o) → (stepFn l s).motion = s.motion) ∧
    (∀ o : TickOracle, (BaseMovement.process o s).motion ≠ s.motion →
       s.pendingMotion.hasChanges = true ∧
       s.hasReachedStartStep = true ∧
       (BaseMovement.process o s).currentStep = s.currentStep - 1 ∧
       (BaseMovement.process o s).currentStep ≤ s.startStep ∧
       ((BaseMovement.process o s).movingForward = true ∨
         (BaseMovement.process o s).motionPauseState.isPausing = true) ∧
       (BaseMovement.process o s).motion.startPositionMM = s.pendingMotion.startPositionMM ∧
       (BaseMovement.process o s).motion.targetDistanceMM = s.pendingMotion.distanceMM ∧
       (BaseMovement.process o s).motion.speedLevelForward = s.pendingMotion.speedLevelForward ∧
       (BaseMovement.process o s).motion.speedLevelBackward = s.pendingMotion.speedLevelBackward ∧
       (BaseMovement.process o s).pendingMotion.hasChanges = false) := by
  refine ⟨fun d => BaseMovement.setDistance_running d s hrun,
          fun d => BaseMovement.setStartPosition_running d s hrun,
          fun lv fwd => BaseMovement.setSpeedInternal_running lv fwd s hrun, ?_, ?_⟩
  · intro l hl
    cases l with
    | cmdSetDistance d => exact (BaseMovement.setDistance_running d s hrun).1
    | cmdSetStartPosition d => exact (BaseMovement.setStartPosition_running d s hrun).1
    | cmdSetSpeedForward lv => exact (BaseMovement.setSpeedInternal_running lv true s hrun).1
    | cmdSetSpeedBackward lv => exact (BaseMovement.setSpeedInternal_running lv false s hrun).1
    | cmdStart d lv oc => exact BaseMovement.start_motion_running d lv oc s hrun hTot
    | cmdStop => exact BaseMovement.stop_motion s
    | cmdTogglePause => exact BaseMovement.togglePause_motion s
    | cmdReturnToStart oc => exact BaseMovement.returnToStart_motion oc s
    | cmdCalibrate oc => exact BaseMovement.startCalibration_motion oc s
    | cmdSetZoneEffect cfg => exact BaseMovement.setZoneEffect_motion cfg s
    | tick o => exact absurd rfl (hl o)
  · intro o hne
    rcases (BaseMovement.process_master o s).2.2.2.2.2 with hsame | hfacts
    · exact absurd hsame hne
    · exact hfacts

/-- C2 witness: the pivot-discipline theorem evaluated on a calibrated
RUNNING state and a concrete distance edit. -/
theorem c2_pending_pivot_discipline_witness :
    runningCalibratedState.currentState = SystemState.STATE_RUNNING ∧
    runningCalibratedState.totalDistanceMM ≠ 0 ∧
    (BaseMovement.setDistance 10 runningCalibratedState).motion = runningCalibratedState.motion ∧
    (BaseMovement.setDistance 10 runningCalibratedState).pendingMotion.hasChanges = true := by
  have h := c2_pending_pivot_discipline runningCalibratedState rfl
    (show (200 : ℚ) ≠ 0 by norm_num)
  exact ⟨rfl, show (200 : ℚ) ≠ 0 by norm_num, (h.1 10).1, (h.1 10).2⟩

/-- **C1** (amended): along every valid trace the current step never leaves
`[min_step - 1, max_step]` — the backward handler decrements before its
boundary check, so the counter can undershoot the configured window by
exactly one step (see the counterexample for the original bound); and the
per-step guards hold: a forward step is emitted only when `currentStep + 1 ≤
targetStep` and `currentStep ≤ maxStep`, a backward step only when `minStep ≤
currentStep`. -/
theorem c1_position_bounds (s : MachineState) (h : ReachableOK s) :
    s.minStep - 1 ≤ s.currentStep ∧ s.currentStep ≤ s.maxStep ∧
    (∀ (o : TickOracle) (t : MachineState),
       (BaseMovement.doStepForward o t).currentStep = t.currentStep ∨
       ((BaseMovement.doStepForward o t).currentStep = t.currentStep + 1 ∧
        t.currentStep + 1 ≤ t.targetStep ∧ t.currentStep ≤ t.maxStep)) ∧
    (∀ (o : TickOracle) (t : MachineState),
       (BaseMovement.doStepBackward o t).currentStep = t.currentStep ∨
       ((BaseMovement.doStepBackward o t).currentStep = t.currentStep - 1 ∧
        t.minStep ≤ t.currentStep)) := by
  obtain ⟨_, _, _, hlo, hhi, _⟩ := ReachableOK_Inv s h
  refine ⟨hlo, hhi, ?_, ?_⟩
  · intro o t
    exact (BaseMovement.doStepForward_master o t).2.2.2.2.2.2
  · intro o t
    exact (BaseMovement.doStepBackward_master o t).2.2.2.2

/-- C1 witness: the amended bounds evaluated at the boot state. -/
theorem c1_position_bounds_witness :
    initState.minStep - 1 ≤ initState.currentStep ∧
    initState.currentStep ≤ initState.maxStep := by
  have h := c1_position_bounds initState ReachableOK.init
  exact ⟨h.1, h.2.1⟩

/-! ## C1 — the position-window invariant: counterexample trace evaluation.
Each `evilStep` lemma evaluates one transition of the trace to a literal
state; each `evilOK` lemma checks the validity (`OKLabel`) of that step. -/

theorem evilStep1 : stepFn (Label.cmdCalibrate (some 200)) initState = e1 := by
  norm_num +decide [stepFn, BaseMovement.startCalibration, e1, initState, refParams,
    MovementMath.mmToSteps, ratTrunc]

theorem evilStep2 : stepFn (Label.cmdSetStartPosition 100) e1 = e2 := by
  norm_num +decide [stepFn, BaseMovement.setStartPosition, BaseMovement.initPendingFromCurrent,
    BaseMovement.recalcStepPositions, BaseMovement.calculateStepDelay,
    MovementMath.vaetStepDelay, MovementMath.speedLevelToCPM,
    MovementMath.mmToSteps, ratTrunc, e2, e1, initState, refParams]

theorem evilStep3 : stepFn (Label.cmdStart 20 5 none) e2 = e3 := by
  norm_num +decide [stepFn, BaseMovement.start, BaseMovement.startCore, BaseMovement.seqStop,
    BaseMovement.startCalibration, BaseMovement.recalcStepPositions,
    BaseMovement.calculateStepDelay, BaseMovement.resetCycleTiming,
    StatsTracking.syncPosition, MovementMath.vaetStepDelay, MovementMath.speedLevelToCPM,
    MovementMath.mmToSteps, ratTrunc, e3, e2, e1, initState, refParams]

theorem evilStep4 : stepFn (Label.tick o1) e3 = e4 := by
  norm_num +decide [stepFn, BaseMovement.process, BaseMovement.processStepPhase,
    BaseMovement.checkAndHandleEndPause, BaseMovement.doStep, BaseMovement.doStepForward,
    BaseMovement.checkAndCorrectDriftEnd, BaseMovement.hardDriftEndFault,
    BaseMovement.resetRandomTurnback, BaseMovement.triggerEndPause,
    StatsTracking.trackDelta, StatsTracking.addDistance, MovementMath.stepsToMM,
    MovementMath.mmToSteps, ratTrunc, ZoneEffectState.reset, o1, e4, e3, e2, e1,
    initState, refParams]

theorem evilStep5 : stepFn Label.cmdTogglePause e4 = e5 := by
  norm_num +decide [stepFn, BaseMovement.togglePause, BaseMovement.saveCurrentSessionStats,
    StatsTracking.markSaved, e5, e4, e3, e2, e1, initState, refParams]

theorem evilStep6 : stepFn (Label.cmdSetDistance (1/6)) e5 = e6 := by
  norm_num +decide [stepFn, BaseMovement.setDistance, BaseMovement.initPendingFromCurrent,
    BaseMovement.recalcStepPositions, BaseMovement.calculateStepDelay,
    MovementMath.vaetStepDelay, MovementMath.speedLevelToCPM,
    MovementMath.mmToSteps, ratTrunc, e6, e5, e4, e3, e2, e1, initState, refParams]

theorem evilStep7 : stepFn (Label.cmdSetStartPosition 0) e6 = e7 := by
  norm_num +decide [stepFn, BaseMovement.setStartPosition, BaseMovement.initPendingFromCurrent,
    BaseMovement.recalcStepPositions, BaseMovement.calculateStepDelay,
    MovementMath.vaetStepDelay, MovementMath.speedLevelToCPM,
    MovementMath.mmToSteps, ratTrunc, e7, e6, e5, e4, e3, e2, e1, initState, refParams]

theorem evilStep8 : stepFn Label.cmdTogglePause e7 = e8 := by
  norm_num +decide [stepFn, BaseMovement.togglePause, BaseMovement.saveCurrentSessionStats,
    StatsTracking.markSaved, e8, e7, e6, e5, e4, e3, e2, e1, initState, refParams]

theorem evilStep9 : stepFn (Label.tick o1) e8 = e9 := by
  norm_num +decide [stepFn, BaseMovement.process, BaseMovement.processStepPhase,
    BaseMovement.checkAndHandleEndPause, BaseMovement.doStep, BaseMovement.doStepForward,
    BaseMovement.checkAndCorrectDriftEnd, BaseMovement.hardDriftEndFault,
    BaseMovement.resetRandomTurnback, BaseMovement.triggerEndPause,
    StatsTracking.trackDelta, StatsTracking.addDistance, MovementMath.stepsToMM,
    MovementMath.mmToSteps, ratTrunc, ZoneEffectState.reset, o1, e9, e8, e7, e6, e5,
    e4, e3, e2, e1, initState, refParams]

theorem evilStep10 : stepFn (Label.tick o1) e9 = e10 := by
  norm_num +decide [stepFn, BaseMovement.process, BaseMovement.processStepPhase,
    BaseMovement.checkAndHandleEndPause, BaseMovement.doStep, BaseMovement.doStepBackward,
    BaseMovement.checkAndCorrectDriftStart, BaseMovement.hardDriftStartFault,
    BaseMovement.processCycleCompletion, BaseMovement.applyPendingChanges,
    BaseMovement.handleCyclePause, BaseMovement.measureCycleTime,
    BaseMovement.resetRandomTurnback, BaseMovement.triggerEndPause,
    StatsTracking.trackDelta, StatsTracking.addDistance, MovementMath.stepsToMM,
    MovementMath.mmToSteps, ratTrunc, ZoneEffectState.reset, o1, e10, e9, e8, e7, e6,
    e5, e4, e3, e2, e1, initState, refParams]

theorem evilStep11 : stepFn (Label.tick o1) e10 = e11 := by
  norm_num +decide [stepFn, BaseMovement.process, BaseMovement.processStepPhase,
    BaseMovement.checkAndHandleEndPause, BaseMovement.doStep, BaseMovement.doStepBackward,
    BaseMovement.checkAndCorrectDriftStart, BaseMovement.hardDriftStartFault,
    BaseMovement.processCycleCompletion, BaseMovement.applyPendingChanges,
    BaseMovement.handleCyclePause, BaseMovement.measureCycleTime,
    BaseMovement.resetRandomTurnback, BaseMovement.triggerEndPause,
    StatsTracking.trackDelta, StatsTracking.addDistance, MovementMath.stepsToMM,
    MovementMath.mmToSteps, ratTrunc, ZoneEffectState.reset, o1, e11, e10, e9, e8, e7,
    e6, e5, e4, e3, e2, e1, initState, refParams]

theorem evilOK1 : OKLabel initState (Label.cmdCalibrate (some 200)) := by
  refine ⟨by norm_num [LabelEnvOK], ?_⟩
  rw [evilStep1]
  intro h
  exact absurd h (by decide)

theorem evilOK2 : OKLabel e1 (Label.cmdSetStartPosition 100) := by
  refine ⟨True.intro, ?_⟩
  rw [evilStep2]
  intro h
  exact absurd h (by decide)

theorem evilOK3 : OKLabel e2 (Label.cmdStart 20 5 none) := by
  refine ⟨True.intro, ?_⟩
  rw [evilStep3]
  intro h
  norm_num +decide [StateOK, CfgWindowOK, MovementMath.mmToSteps, ratTrunc,
    e3, e2, e1, initState, refParams]

theorem evilOK4 : OKLabel e3 (Label.tick o1) := by
  refine ⟨True.intro, ?_⟩
  rw [evilStep4]
  intro h
  norm_num +decide [StateOK, CfgWindowOK, MovementMath.mmToSteps, ratTrunc,
    e4, e3, e2, e1, initState, refParams]

theorem evilOK5 : OKLabel e4 Label.cmdTogglePause := by
  refine ⟨True.intro, ?_⟩
  rw [evilStep5]
  intro h
  exact absurd h (by decide)

theorem evilOK6 : OKLabel e5 (Label.cmdSetDistance (1/6)) := by
  refine ⟨True.intro, ?_⟩
  rw [evilStep6]
  intro h
  exact absurd h (by decide)

theorem evilOK7 : OKLabel e6 (Label.cmdSetStartPosition 0) := by
  refine ⟨True.intro, ?_⟩
  rw [evilStep7]
  intro h
  exact absurd h (by decide)

theorem evilOK8 : OKLabel e7 Label.cmdTogglePause := by
  refine ⟨True.intro, ?_⟩
  rw [evilStep8]
  intro h
  norm_num +decide [StateOK, CfgWindowOK, MovementMath.mmToSteps, ratTrunc,
    e8, e7, e6, e5, e4, e3, e2, e1, initState, refParams]

theorem evilOK9 : OKLabel e8 (Label.tick o1) := by
  refine ⟨True.intro, ?_⟩
  rw [evilStep9]
  intro h
  norm_num +decide [StateOK, CfgWindowOK, MovementMath.mmToSteps, ratTrunc,
    e9, e8, e7, e6, e5, e4, e3, e2, e1, initState, refParams]

theorem evilOK10 : OKLabel e9 (Label.tick o1) := by
  refine ⟨True.intro, ?_⟩
  rw [evilStep10]
  intro h
  norm_num +decide [StateOK, CfgWindowOK, MovementMath.mmToSteps, ratTrunc,
    e10, e9, e8, e7, e6, e5, e4, e3, e2, e1, initState, refParams]

theorem evilOK11 : OKLabel e10 (Label.tick o1) := by
  refine ⟨True.intro, ?_⟩
  rw [evilStep11]
  intro h
  norm_num +decide [StateOK, CfgWindowOK, MovementMath.mmToSteps, ratTrunc,
    e11, e10, e9, e8, e7, e6, e5, e4, e3, e2, e1, initState, refParams]

/-- C1 counterexample: a fully valid trace — calibrate 200 mm, park the
window at 100 mm, start a 20 mm movement from below it (latch disarmed),
pause after one approach step, shrink the window to `[0, 1/6]` mm through
immediate PAUSED-time edits, resume, and tick three times — ends RUNNING with
`currentStep = -1 < minStep = 0`: the backward handler decrements before its
boundary check and the disarmed `hasReachedStartStep` latch suppresses cycle
completion, refuting `min_step <= current_step` outside ERROR. -/
theorem c1_window_invariant_fails :
    TraceOK initState evilTrace ∧
    (run initState evilTrace).currentState = SystemState.STATE_RUNNING ∧
    (run initState evilTrace).currentStep < (run initState evilTrace).minStep := by
  have hrun : run initState evilTrace = e11 := by
    simp only [evilTrace, run, evilStep1, evilStep2, evilStep3, evilStep4, evilStep5,
      evilStep6, evilStep7, evilStep8, evilStep9, evilStep10, evilStep11]
  refine ⟨?_, by rw [hrun]; decide, by rw [hrun]; decide⟩
  simp only [evilTrace, TraceOK]
  rw [evilStep1, evilStep2, evilStep3, evilStep4, evilStep5, evilStep6, evilStep7,
    evilStep8, evilStep9, evilStep10]
  exact ⟨evilOK1, evilOK2, evilOK3, evilOK4, evilOK5, evilOK6, evilOK7, evilOK8,
    evilOK9, evilOK10, evilOK11, trivial⟩

end Stepper
